import Mathlib

/-!
Verification development for the cloudflare-proxy-gateway edge reverse proxy.

The TypeScript sources are shallowly embedded: JS strings become `List Char`,
JS `Map`s become association lists, `Date.now()` becomes an explicit time
parameter, and the stateful classes become explicit state-passing functions.
JS numeric code is embedded over `Nat`/`Int` where the source manipulates
integral quantities (timestamps, counters) and over `ℚ` where the source
performs fractional arithmetic (token buckets, rate multipliers).
-/

namespace Gateway

/-- Characters of a JS string. -/
abbrev Str := List Char

/-- Embed a Lean string literal as the `Str` model of a JS string. -/
def str (s : String) : Str := s.data

/-- `Map.get`: first binding for a key in an association list. -/
def alookup (k : Str) (l : List (Str × α)) : Option α :=
  (l.find? (fun p => p.1 == k)).map (fun p => p.2)

/-- `Map.set`: replace the binding in place when the key is present
(JS `Map` keeps insertion order on update), append otherwise. -/
def aset (k : Str) (v : α) (l : List (Str × α)) : List (Str × α) :=
  if (l.find? (fun p => p.1 == k)).isSome then
    l.map (fun p => if p.1 == k then (k, v) else p)
  else
    l ++ [(k, v)]

/-- `Map.delete`. -/
def adelete (k : Str) (l : List (Str × α)) : List (Str × α) :=
  l.filter (fun p => ¬ p.1 == k)

/-- A key occurs at most once among the bindings (always true for a JS `Map`). -/
def keyUnique (k : Str) (l : List (Str × α)) : Prop :=
  (l.filter (fun p => p.1 == k)).length ≤ 1

/-! ## Circuit breaker (`src/circuitbreaker.ts`)

The class keeps two maps keyed by backend URL: per-backend state and a
per-backend failure-timestamp history.  We embed the entry for one backend
(one key of those maps) as `BreakerEntry`; every method of the class touches
only the entry of the backend it is called for. -/

/-- `CircuitState` (`types/circuitbreaker.ts`): CLOSED / OPEN / HALF_OPEN. -/
inductive CircuitState
  | closed
  | opened
  | halfOpen
deriving DecidableEq

/-- `CircuitBreakerConfig` after the `{...DEFAULT_CONFIG, ...config}` merge,
so every field is present.  Times are milliseconds. -/
structure CircuitBreakerConfig where
  failureThreshold : Nat
  timeout : Int
  halfOpenAttempts : Nat
  successThreshold : Nat
  monitoringPeriod : Int
deriving DecidableEq

/-- `CircuitBreakerState` (per backend). -/
structure CircuitBreakerState where
  state : CircuitState
  failures : Nat
  successes : Nat
  lastFailureTime : Int
  lastStateChange : Int
  nextAttemptTime : Int
  totalRequests : Nat
  totalFailures : Nat
deriving DecidableEq

/-- Fresh state created lazily by `getState`. -/
def initialBreakerState (now : Int) : CircuitBreakerState :=
  { state := .closed, failures := 0, successes := 0, lastFailureTime := 0,
    lastStateChange := now, nextAttemptTime := 0, totalRequests := 0,
    totalFailures := 0 }

/-- One backend's slice of the breaker: its state and its failure history. -/
structure BreakerEntry where
  st : CircuitBreakerState
  history : List Int
deriving DecidableEq

/-- `cleanupHistory`: drop failures at or before `now - monitoringPeriod`. -/
def cleanupHistory (monitoringPeriod now : Int) (history : List Int) : List Int :=
  history.filter (fun t => now - monitoringPeriod < t)

/-- `transitionTo`.  The JS guard `newState === OPEN && timeout` is truthy
only when a timeout argument was passed and is nonzero. -/
def transitionTo (now : Int) (newState : CircuitState) (timeoutArg : Option Int)
    (s : CircuitBreakerState) : CircuitBreakerState :=
  let s := { s with state := newState, lastStateChange := now, totalRequests := 0 }
  if newState = .opened ∧ timeoutArg.getD 0 ≠ 0 then
    { s with nextAttemptTime := now + timeoutArg.getD 0 }
  else if newState = .closed then
    { s with nextAttemptTime := 0, failures := 0, successes := 0 }
  else if newState = .halfOpen then
    { s with successes := 0 }
  else s

/-- `canRequest`: gate check, possibly transitioning OPEN → HALF_OPEN. -/
def canRequest (cfg : CircuitBreakerConfig) (now : Int) (e : BreakerEntry) :
    Bool × BreakerEntry :=
  let hist := cleanupHistory cfg.monitoringPeriod now e.history
  match e.st.state with
  | .closed => (true, ⟨e.st, hist⟩)
  | .opened =>
      if e.st.nextAttemptTime ≤ now then
        (true, ⟨transitionTo now .halfOpen none e.st, hist⟩)
      else
        (false, ⟨e.st, hist⟩)
  | .halfOpen =>
      if e.st.totalRequests < cfg.halfOpenAttempts then
        (true, ⟨e.st, hist⟩)
      else
        (false, ⟨e.st, hist⟩)

/-- `recordSuccess`. -/
def recordSuccess (cfg : CircuitBreakerConfig) (now : Int) (e : BreakerEntry) :
    BreakerEntry :=
  let s := { e.st with successes := e.st.successes + 1,
                       totalRequests := e.st.totalRequests + 1 }
  if s.state = .halfOpen ∧ cfg.successThreshold ≤ s.successes then
    let s := transitionTo now .closed none s
    ⟨{ s with failures := 0, successes := 0 }, []⟩
  else
    ⟨s, e.history⟩

/-- `recordFailure`. -/
def recordFailure (cfg : CircuitBreakerConfig) (now : Int) (e : BreakerEntry) :
    BreakerEntry :=
  let s := { e.st with failures := e.st.failures + 1,
                       totalRequests := e.st.totalRequests + 1,
                       totalFailures := e.st.totalFailures + 1,
                       lastFailureTime := now }
  let hist := cleanupHistory cfg.monitoringPeriod now (e.history ++ [now])
  match s.state with
  | .closed =>
      if cfg.failureThreshold ≤ hist.length then
        ⟨transitionTo now .opened (some cfg.timeout) s, hist⟩
      else
        ⟨s, hist⟩
  | .halfOpen =>
      let s := transitionTo now .opened (some cfg.timeout) s
      ⟨{ s with successes := 0 }, hist⟩
  | .opened => ⟨s, hist⟩

/-! ## Routes (`src/config.ts`)

`Route.prefix` is a Lean keyword, so the field is called `pfx` here. -/

/-- `Route`: a path-prefix routing rule with optional feature profile names. -/
structure Route where
  pfx : Str
  target : Str
  rateLimitMultiplier : Option ℚ
  cache : Option Str
  circuitBreaker : Option Str
  deduplication : Option Str
  sizeLimits : Option Str
  auth : Option Str
deriving DecidableEq

/-- `config.rateLimit`. -/
structure RateLimitSettings where
  enabled : Bool
  requestsPerWindow : Nat
  windowSeconds : Nat
deriving DecidableEq

/-! ## Fixed-window rate limiter (`src/ratelimit.ts`)

`rateLimitStore` and the module-level `lastCleanup` become `RLStore`;
`Date.now()` becomes the explicit `now` (milliseconds, `Nat`). -/

/-- One fixed window: request count and window start (unix seconds). -/
structure RateLimitWindow where
  count : Nat
  windowStart : Nat
deriving DecidableEq

/-- The module state: the store plus the `lastCleanup` timestamp. -/
structure RLStore where
  entries : List (Str × RateLimitWindow)
  lastCleanup : Nat
deriving DecidableEq

/-- `CLEANUP_INTERVAL` (1 minute). -/
def RL_CLEANUP_INTERVAL : Nat := 60000

/-- `MAX_ENTRIES` hard cap. -/
def RL_MAX_ENTRIES : Nat := 10000

/-- `getRateLimitKey`: `ip:routePrefix` when a (truthy) prefix is given. -/
def getRateLimitKey (ip : Str) (routePfx : Option Str) : Str :=
  match routePfx with
  | some p => if p = [] then ip else ip ++ ':' :: p
  | none => ip

/-- `getCurrentWindow`: `floor(now / 1000 / windowSeconds) * windowSeconds`. -/
def getCurrentWindow (windowSeconds now : Nat) : Nat :=
  now / 1000 / windowSeconds * windowSeconds

/-- Stable insertion of an entry into a list sorted by ascending `windowStart`
(new element goes after existing equal keys, as a stable `sort` would). -/
def insertByWindowStart (x : Str × RateLimitWindow) :
    List (Str × RateLimitWindow) → List (Str × RateLimitWindow)
  | [] => [x]
  | y :: ys =>
      if y.2.windowStart ≤ x.2.windowStart then y :: insertByWindowStart x ys
      else x :: y :: ys

/-- Stable sort by ascending `windowStart` (the `entries.sort(...)` call). -/
def sortByWindowStart (l : List (Str × RateLimitWindow)) :
    List (Str × RateLimitWindow) :=
  l.foldr insertByWindowStart []

/-- `performEmergencyCleanup`: delete the oldest 25% of entries by key. -/
def performEmergencyCleanup (l : List (Str × RateLimitWindow)) :
    List (Str × RateLimitWindow) :=
  let sorted := sortByWindowStart l
  let toRemove := (sorted.take (l.length / 4)).map (fun p => p.1)
  toRemove.foldl (fun acc k => adelete k acc) l

/-- `cleanupOldEntries`. -/
def cleanupOldEntries (windowSeconds now : Nat) (st : RLStore) : RLStore :=
  if now - st.lastCleanup < RL_CLEANUP_INTERVAL then
    if RL_MAX_ENTRIES ≤ st.entries.length then
      { st with entries := performEmergencyCleanup st.entries }
    else st
  else
    let currentWindow := getCurrentWindow windowSeconds now
    let kept := st.entries.filter (fun p => ¬ p.2.windowStart < currentWindow)
    let kept :=
      if RL_MAX_ENTRIES ≤ kept.length then performEmergencyCleanup kept else kept
    { entries := kept, lastCleanup := now }

/-- The effective fixed-window limit: `Math.floor(requestsPerWindow * m)` when
the matched route carries a truthy multiplier (`0` is falsy in JS). -/
def effectiveFixedLimit (requestsPerWindow : Nat) (route? : Option Route) : Int :=
  match route? with
  | none => requestsPerWindow
  | some r =>
      match r.rateLimitMultiplier with
      | none => requestsPerWindow
      | some m =>
          if m = 0 then requestsPerWindow
          else Int.floor ((requestsPerWindow : ℚ) * m)

/-- Result record of `checkRateLimit`. -/
structure RateLimitResult where
  allowed : Bool
  retryAfter : Option Nat
  limit : Option Int
  current : Option Nat
deriving DecidableEq

/-- An always-allowing result (rate limiting disabled). -/
def rlDisabledResult : RateLimitResult :=
  { allowed := true, retryAfter := none, limit := none, current := none }

/-- `checkRateLimit` (fixed window).  The source reads only `config.rateLimit`
from the full config, so that field is the parameter here. -/
def checkRateLimit (ip : Str) (rl? : Option RateLimitSettings)
    (route? : Option Route) (now : Nat) (st : RLStore) :
    RateLimitResult × RLStore :=
  match rl? with
  | none => (rlDisabledResult, st)
  | some rl =>
    if rl.enabled = false then (rlDisabledResult, st)
    else
      let st := cleanupOldEntries rl.windowSeconds now st
      let effectiveLimit := effectiveFixedLimit rl.requestsPerWindow route?
      let currentWindow := getCurrentWindow rl.windowSeconds now
      let key := getRateLimitKey ip ((route?).map (fun r => r.pfx))
      -- get-or-create: a fresh `{count: 0}` window is stored if there is no
      -- entry or the stored window has rotated
      let (entry, st) :=
        match alookup key st.entries with
        | some e =>
            if e.windowStart < currentWindow then
              let e' : RateLimitWindow := { count := 0, windowStart := currentWindow }
              (e', { st with entries := aset key e' st.entries })
            else (e, st)
        | none =>
            let e' : RateLimitWindow := { count := 0, windowStart := currentWindow }
            (e', { st with entries := aset key e' st.entries })
      if effectiveLimit ≤ (entry.count : Int) then
        let retryAfter := max ((currentWindow + rl.windowSeconds) - now / 1000) 1
        ({ allowed := false, retryAfter := some retryAfter,
           limit := some effectiveLimit, current := some entry.count }, st)
      else
        -- `windowEntry.count++` mutates the object held by the map
        let e' : RateLimitWindow := { count := entry.count + 1, windowStart := entry.windowStart }
        ({ allowed := true, retryAfter := none,
           limit := some effectiveLimit, current := some (entry.count + 1) },
         { st with entries := aset key e' st.entries })

/-! ## Token-bucket rate limiter (`src/ratelimit-tokenbucket.ts`)

JS number arithmetic on tokens is embedded over `ℚ`; `Infinity` results
(disabled limiter) are modelled by `none`. -/

/-- `TokenBucket`. -/
structure TokenBucket where
  tokens : ℚ
  lastRefill : ℚ
  capacity : ℚ
  refillRate : ℚ
deriving DecidableEq

/-- Module state: `tokenBuckets` map plus `lastCleanup`. -/
structure TBStore where
  buckets : List (Str × TokenBucket)
  lastCleanup : ℚ
deriving DecidableEq

/-- `CLEANUP_INTERVAL` (10 minutes). -/
def TB_CLEANUP_INTERVAL : ℚ := 600000

/-- `BUCKET_EXPIRY` (1 hour). -/
def TB_BUCKET_EXPIRY : ℚ := 3600000

/-- `getBucketKey`. -/
def getBucketKey (ip : Str) (routePfx : Option Str) : Str :=
  match routePfx with
  | some p => if p = [] then ip else ip ++ ':' :: p
  | none => ip

/-- `cleanupExpiredBuckets`. -/
def cleanupExpiredBuckets (now : ℚ) (st : TBStore) : TBStore :=
  if now - st.lastCleanup < TB_CLEANUP_INTERVAL then st
  else
    { buckets := st.buckets.filter (fun p => ¬ p.2.lastRefill < now - TB_BUCKET_EXPIRY),
      lastCleanup := now }

/-- `getOrCreateBucket`: buckets start full. -/
def getOrCreateBucket (key : Str) (capacity refillRate now : ℚ) (st : TBStore) :
    TokenBucket × TBStore :=
  match alookup key st.buckets with
  | some b => (b, st)
  | none =>
      let b : TokenBucket :=
        { tokens := capacity, lastRefill := now, capacity := capacity,
          refillRate := refillRate }
      (b, { st with buckets := aset key b st.buckets })

/-- `refillTokens`: lazy refill by elapsed time, capped at capacity. -/
def refillTokens (now : ℚ) (b : TokenBucket) : TokenBucket :=
  let elapsedSeconds := (now - b.lastRefill) / 1000
  let tokensToAdd := elapsedSeconds * b.refillRate
  { b with tokens := min b.capacity (b.tokens + tokensToAdd), lastRefill := now }

/-- Result record of `checkTokenBucketRateLimit`; `none` models `Infinity`. -/
structure TokenBucketResult where
  allowed : Bool
  limit : Option ℚ
  remaining : Option ℤ
  retryAfter : ℤ
deriving DecidableEq

/-- The disabled-limiter result (`limit`/`remaining` are `Infinity`). -/
def tbDisabledResult : TokenBucketResult :=
  { allowed := true, limit := none, remaining := none, retryAfter := 0 }

/-- The effective token-bucket base limit (truthy multiplier applied). -/
def tbBaseLimit (requestsPerWindow : Nat) (route? : Option Route) : ℚ :=
  match route? with
  | none => requestsPerWindow
  | some r =>
      match r.rateLimitMultiplier with
      | none => requestsPerWindow
      | some m =>
          if m = 0 then (requestsPerWindow : ℚ)
          else (requestsPerWindow : ℚ) * m

/-- `checkTokenBucketRateLimit`. -/
def checkTokenBucketRateLimit (ip : Str) (rl? : Option RateLimitSettings)
    (route? : Option Route) (now : ℚ) (st : TBStore) :
    TokenBucketResult × TBStore :=
  let st := cleanupExpiredBuckets now st
  match rl? with
  | none => (tbDisabledResult, st)
  | some rl =>
    if rl.enabled = false then (tbDisabledResult, st)
    else
      let base := tbBaseLimit rl.requestsPerWindow route?
      let tokensPerSecond := base / (rl.windowSeconds : ℚ)
      let capacity : ℚ := ((⌈base * (3 / 2 : ℚ)⌉ : ℤ) : ℚ)
      let key := getBucketKey ip ((route?).map (fun r => r.pfx))
      let (b, st) := getOrCreateBucket key capacity tokensPerSecond now st
      let b := refillTokens now b
      if 1 ≤ b.tokens then
        let b' := { b with tokens := b.tokens - 1 }
        ({ allowed := true, limit := some base,
           remaining := some ⌊b'.tokens⌋, retryAfter := 0 },
         { st with buckets := aset key b' st.buckets })
      else
        let tokensNeeded := 1 - b.tokens
        ({ allowed := false, limit := some base, remaining := some 0,
           retryAfter := ⌈tokensNeeded / tokensPerSecond⌉ },
         { st with buckets := aset key b st.buckets })

/-- Run a sequence of fixed-window checks for one client at the given times,
threading the store. -/
def runRLChecks (ip : Str) (rl? : Option RateLimitSettings) (route? : Option Route) :
    List Nat → RLStore → List RateLimitResult × RLStore
  | [], st => ([], st)
  | t :: ts, st =>
      let out := checkRateLimit ip rl? route? t st
      let rest := runRLChecks ip rl? route? ts out.2
      (out.1 :: rest.1, rest.2)

/-- The fixed-window results the claim predicts for checks inside window `W`
starting from count `c`: allowed while under the limit, else rejected with
`retryAfter` = seconds to the next window boundary. -/
def expectedRLResults (L : Int) (W ws : Nat) : Nat → List Nat → List RateLimitResult
  | _, [] => []
  | c, t :: ts =>
      if L ≤ (c : Int) then
        { allowed := false, retryAfter := some ((W + ws) - t / 1000),
          limit := some L, current := some c } :: expectedRLResults L W ws c ts
      else
        { allowed := true, retryAfter := none, limit := some L,
          current := some (c + 1) } :: expectedRLResults L W ws (c + 1) ts

/-- Run `n` token-bucket checks for one client at one instant, threading the
store. -/
def runTBChecks (ip : Str) (rl? : Option RateLimitSettings) (route? : Option Route)
    (now : ℚ) : Nat → TBStore → List TokenBucketResult × TBStore
  | 0, st => ([], st)
  | n + 1, st =>
      let out := checkTokenBucketRateLimit ip rl? route? now st
      let rest := runTBChecks ip rl? route? now n out.2
      (out.1 :: rest.1, rest.2)

/-- The token-bucket results the (amended) claim predicts for `n` instantaneous
checks holding `m` whole tokens: allowed (consuming one token) while a token
is left, else rejected with `retryAfter = ceil(1 / refillRate)`. -/
def expectedTBResults (base r : ℚ) : ℤ → Nat → List TokenBucketResult
  | _, 0 => []
  | m, n + 1 =>
      if 1 ≤ m then
        { allowed := true, limit := some base, remaining := some (m - 1),
          retryAfter := 0 } :: expectedTBResults base r (m - 1) n
      else
        { allowed := false, limit := some base, remaining := some 0,
          retryAfter := ⌈1 / r⌉ } :: expectedTBResults base r m n

/-! ## Requests, responses, URLs

`Headers` keys are case-insensitive; response bodies that the source builds
out of fixed JSON templates are abstracted to their message text (their
status codes and headers are kept exact). -/

/-- The parsed-URL view (`new URL(...)`): `search` carries its leading `?`. -/
structure UrlM where
  origin : Str
  pathname : Str
  search : Str
deriving DecidableEq

/-- `URL.toString()` (fragments never occur here). -/
def urlToString (u : UrlM) : Str := u.origin ++ u.pathname ++ u.search

/-- An inbound request: method, raw URL string, parsed URL, headers. -/
structure RequestM where
  method : Str
  urlStr : Str
  url : UrlM
  headers : List (Str × Str)
deriving DecidableEq

/-- A materialized response. -/
structure Resp where
  status : Nat
  statusText : Str
  headers : List (Str × Str)
  body : Str
deriving DecidableEq

/-- JS `String.includes`: the needle occurs contiguously in the haystack. -/
def strIncludes (needle : Str) : Str → Bool
  | [] => needle == []
  | c :: t => needle.isPrefixOf (c :: t) || strIncludes needle t

/-- `Headers.get`: case-insensitive lookup. -/
def getHeader (headers : List (Str × Str)) (name : Str) : Option Str :=
  (headers.find? (fun p => p.1.map Char.toLower == name.map Char.toLower)).map
    (fun p => p.2)

/-- `Headers.set`: case-insensitive replace-or-append. -/
def setHeader (name value : Str) (headers : List (Str × Str)) :
    List (Str × Str) :=
  if (headers.find? (fun p => p.1.map Char.toLower == name.map Char.toLower)).isSome then
    headers.map (fun p =>
      if p.1.map Char.toLower == name.map Char.toLower then (name, value) else p)
  else
    headers ++ [(name, value)]

/-- Render a `Nat` the way JS string interpolation would. -/
def natToStr (n : Nat) : Str := (toString n).data

/-! ## Response cache (`src/cache.ts`)

The KV store is external; `CacheManager.get` is embedded as a pure function
of the looked-up entry and the current time.  The `x-cache-config` header
(a JSON blob the source stuffs into the stored headers) is modelled by the
`swrConfig` field: `some swr` iff the header is present, carrying the parsed
`staleWhileRevalidate` value (the source writes it on every `set`). -/

/-- `CacheConfig` profile. -/
structure CacheConfig where
  ttl : Nat
  varyBy : Option (List Str)
  bypassHeader : Option Str
  staleWhileRevalidate : Option Nat
  cacheableStatusCodes : Option (List Nat)
  respectCacheControl : Bool
deriving DecidableEq

/-- The response part of a stored `CacheEntry`. -/
structure CachedResp where
  status : Nat
  statusText : Str
  headers : List (Str × Str)
  body : Str
deriving DecidableEq

/-- `CacheEntry` as stored in KV. -/
structure CacheEntryM where
  response : CachedResp
  cachedAt : Nat
  expiresAt : Nat
  route : Str
  cacheKey : Str
  swrConfig : Option Nat
deriving DecidableEq

/-- `DEFAULT_CACHEABLE_STATUS_CODES`. -/
def DEFAULT_CACHEABLE_STATUS_CODES : List Nat :=
  [200, 203, 204, 206, 300, 301, 404, 405, 410, 414, 501]

/-- `CacheManager.isCacheable`. -/
def isCacheable (statusCode : Nat) (config : CacheConfig)
    (cacheControl : Option Str) : Bool :=
  let blockedByDirective :=
    match cacheControl with
    | some cc =>
        config.respectCacheControl && cc != [] &&
          (let d := cc.map Char.toLower
           strIncludes (str "no-store") d || strIncludes (str "no-cache") d ||
             strIncludes (str "private") d)
    | none => false
  if blockedByDirective then false
  else (config.cacheableStatusCodes.getD DEFAULT_CACHEABLE_STATUS_CODES).contains statusCode

/-- Lexicographic `≤` on JS strings (the default `Array.sort` comparator). -/
def strLe : Str → Str → Bool
  | [], _ => true
  | _ :: _, [] => false
  | c :: cs, d :: ds => if c = d then strLe cs ds else decide (c < d)

/-- Stable insertion for `sortStrings`. -/
def insertStrSorted (x : Str) : List Str → List Str
  | [] => [x]
  | y :: ys => if strLe y x then y :: insertStrSorted x ys else x :: y :: ys

/-- `Array.sort()` on strings. -/
def sortStrings (l : List Str) : List Str := l.foldr insertStrSorted []

/-- `CacheManager.generateCacheKey`. -/
def generateCacheKey (method url : Str) (varyBy : Option (List Str))
    (headers : List (Str × Str)) (hmacUser : Option Str) : Str :=
  let parts := [method, url]
  let parts :=
    match hmacUser with
    | some u => if u = [] then parts else parts ++ [str "user:" ++ u]
    | none => parts
  let parts :=
    match varyBy with
    | some vb =>
        if vb = [] then parts
        else
          let headerParts :=
            sortStrings (vb.map (fun h => h ++ ':' :: ((getHeader headers h).getD [])))
          parts ++ [List.intercalate (str "|") headerParts]
    | none => parts
  List.intercalate (str "::") parts

/-- Outcome of `CacheManager.get`: `missExpired` means the stale window has
passed, the entry was deleted from the backing store, and `null` returned. -/
inductive CacheGetResult
  | missAbsent
  | fresh (e : CacheEntryM)
  | staleHit (e : CacheEntryM)
  | missExpired
deriving DecidableEq

/-- `CacheManager.get`, as a function of the KV lookup result and `now`. -/
def cacheManagerGet (now : Nat) (entry? : Option CacheEntryM) : CacheGetResult :=
  match entry? with
  | none => .missAbsent
  | some e =>
      if e.expiresAt < now then
        let staleAge := now - e.expiresAt
        match e.swrConfig with
        | some swr => if staleAge ≤ swr * 1000 then .staleHit e else .missExpired
        | none => .missExpired
      else .fresh e

/-- `CacheManager.createResponseFromCache`: rebuilds the response, marking
cache status (`X-Cache-Date` rendering of the timestamp is abstracted to its
decimal form). -/
def createResponseFromCache (e : CacheEntryM) (stale : Bool) : Resp :=
  let headers := setHeader (str "X-Cache") (str "HIT") e.response.headers
  let headers := setHeader (str "X-Cache-Date") (natToStr e.cachedAt) headers
  let headers :=
    if stale then setHeader (str "X-Cache-Status") (str "STALE") headers else headers
  { status := e.response.status, statusText := e.response.statusText,
    headers := headers, body := e.response.body }

/-- `shouldBypassCache`: the configured bypass header (default `X-No-Cache`)
is present on the request. -/
def shouldBypassCache (headers : List (Str × Str)) (config : CacheConfig) : Bool :=
  let bypassHeader :=
    match config.bypassHeader with
    | some b => if b = [] then str "X-No-Cache" else b
    | none => str "X-No-Cache"
  (getHeader headers bypassHeader).isSome

/-! ## Auth framework (`src/auth/registry.ts`, `src/auth/cache.ts`,
`src/auth/index.ts`)

Adapters are external plug-ins: they are modelled as opaque functions (their
profile-specific config is captured inside them).  KV namespaces are oracle
functions.  JSON body texts are abstracted to their messages. -/

/-- `AuthResult`. -/
structure AuthResultM where
  success : Bool
  upstreamHeaders : Option (List (Str × Str))
  response : Option Resp
deriving DecidableEq

/-- The cache-safe projection persisted by `setCachedAuthResult`. -/
structure CacheableAuthResult where
  success : Bool
  upstreamHeaders : Option (List (Str × Str))
deriving DecidableEq

/-- What `adapter.verify` can do: return a result or throw. -/
inductive VerifyOutcome
  | ok (r : AuthResultM)
  | threw
deriving DecidableEq

/-- `AuthAdapter`. -/
structure AuthAdapterM where
  name : Str
  cacheKeyFn : RequestM → Option Str
  verify : RequestM → VerifyOutcome

/-- `AuthProfileConfig` (adapter-specific extra fields live inside the
adapter functions). -/
structure AuthProfileConfig where
  adapter : Str
deriving DecidableEq

/-- `AuthCacheConfig`. -/
structure AuthCacheConfig where
  enabled : Bool
  kvBinding : Option Str
  ttl : Nat
deriving DecidableEq

/-- `AuthFeatureConfig`. -/
structure AuthFeatureConfig where
  enabled : Bool
  cache : Option AuthCacheConfig
  profiles : List (Str × AuthProfileConfig)

/-- The generic 401 response (`DEFAULT_401` in the orchestrator and the
identical fallback built in the router). -/
def genericUnauthorized : Resp :=
  { status := 401, statusText := [],
    headers := [(str "Content-Type", str "application/json")],
    body := str "\x7b\x22error\x22:\x22Unauthorized\x22\x7d" }

/-- `DEFAULT_401`. -/
def DEFAULT_401 : AuthResultM :=
  { success := false, upstreamHeaders := none, response := some genericUnauthorized }

/-- The 500 built for an unregistered adapter (body message abstracted). -/
def adapterNotRegistered500 : Resp :=
  { status := 500, statusText := [],
    headers := [(str "Content-Type", str "application/json")],
    body := str "Auth adapter is not registered" }

/-- `buildKey` (`src/auth/cache.ts`): prefix with `auth:` when sharing
`PROXY_CACHE`. -/
def buildAuthCacheKey (adapterName cacheKey : Str) (kvBinding : Option Str) : Str :=
  let p := if kvBinding = some (str "PROXY_CACHE") then str "auth:" else []
  p ++ adapterName ++ ':' :: cacheKey

/-- The env's KV bindings for the auth cache, as an oracle keyed by binding
name (`none` = binding not configured). -/
def AuthKvOracle : Type := Str → Option (Str → Option CacheableAuthResult)

/-- `getCachedAuthResult`. -/
def getCachedAuthResult (adapterName cacheKey : Str) (config : AuthCacheConfig)
    (authKv : AuthKvOracle) : Option CacheableAuthResult :=
  if config.enabled = false then none
  else
    match authKv (config.kvBinding.getD (str "PROXY_AUTH_CACHE")) with
    | none => none
    | some kv => kv (buildAuthCacheKey adapterName cacheKey config.kvBinding)

/-- The cache-read step of `runAuth`: only when the feature's decision cache
is enabled and the adapter supplies a non-null cache key. -/
def runAuthCached (adapter : AuthAdapterM) (featureConfig : AuthFeatureConfig)
    (authKv : AuthKvOracle) (req : RequestM) : Option CacheableAuthResult :=
  match featureConfig.cache with
  | some cc =>
      if cc.enabled then
        match adapter.cacheKeyFn req with
        | some key => getCachedAuthResult adapter.name key cc authKv
        | none => none
      else none
  | none => none

/-- `runAuth` (`src/auth/index.ts`).  The success-path cache write goes
through `ctx.waitUntil` and never affects the returned value, so it does not
appear in the result. -/
def runAuth (registry : List (Str × AuthAdapterM)) (authKv : AuthKvOracle)
    (profileConfig : AuthProfileConfig) (featureConfig : AuthFeatureConfig)
    (req : RequestM) : AuthResultM :=
  match alookup profileConfig.adapter registry with
  | none =>
      { success := false, upstreamHeaders := none,
        response := some adapterNotRegistered500 }
  | some adapter =>
      match runAuthCached adapter featureConfig authKv req with
      | some c =>
          { success := c.success, upstreamHeaders := c.upstreamHeaders,
            response := none }
      | none =>
          match adapter.verify req with
          | .threw => DEFAULT_401
          | .ok result => result

/-! ## Path matching and URL rewriting (`src/router.ts`) -/

/-- `isPrefixMatch`: a prefix ending in `/` matches by `startsWith`; otherwise
the match is exact or the path continues with `/`. -/
def isPrefixMatch (path pfx : Str) : Bool :=
  if pfx.getLast? = some '/' then pfx.isPrefixOf path
  else path == pfx || (pfx ++ ['/']).isPrefixOf path

/-- `joinPaths`: join a base path and a suffix with exactly one `/`. -/
def joinPaths (basePath suffix : Str) : Str :=
  let base := if basePath = str "/" then [] else basePath
  if suffix = [] then (if base = [] then str "/" else base)
  else
    let normalizedSuffix := if suffix.head? = some '/' then suffix else '/' :: suffix
    if base = [] then normalizedSuffix
    else if base.getLast? = some '/' then base.dropLast ++ normalizedSuffix
    else base ++ normalizedSuffix

/-- `MatchedRoute`. -/
structure MatchedRoute where
  route : Route
  remainingPath : Str
deriving DecidableEq

/-- `findMatchingRoute`: first-match-wins over the declared order. -/
def findMatchingRoute (path : Str) : List Route → Option MatchedRoute
  | [] => none
  | r :: rs =>
      if isPrefixMatch path r.pfx then some ⟨r, path.drop r.pfx.length⟩
      else findMatchingRoute path rs

/-! ## Config model (`src/config.ts`) and feature resolvers (`src/router.ts`) -/

/-- `SizeLimits` (`src/validation.ts`). -/
structure SizeLimits where
  maxBodySize : Option Nat
  maxUrlLength : Option Nat
  maxHeaderSize : Option Nat
  maxHeaderCount : Option Nat
deriving DecidableEq

/-- `DeduplicationConfig` profile. -/
structure DeduplicationConfig where
  windowMs : Option Nat
deriving DecidableEq

/-- A feature block (`enabled` + named profiles). -/
structure FeatureToggle (π : Type) where
  enabled : Bool
  profiles : List (Str × π)

/-- The `sizeLimits` feature block, with its global default. -/
structure SizeLimitsFeature where
  enabled : Bool
  defaultLimits : Option SizeLimits
  profiles : List (Str × SizeLimits)
deriving DecidableEq

/-- `CircuitBreakerConfig` as written in a profile: all fields optional. -/
structure CircuitBreakerProfile where
  failureThreshold : Option Nat
  timeout : Option Int
  halfOpenAttempts : Option Nat
  successThreshold : Option Nat
  monitoringPeriod : Option Int
deriving DecidableEq

/-- `DEFAULT_CONFIG` of the circuit breaker. -/
def DEFAULT_CB_CONFIG : CircuitBreakerConfig :=
  { failureThreshold := 5, timeout := 60000, halfOpenAttempts := 3,
    successThreshold := 2, monitoringPeriod := 60000 }

/-- The `{...DEFAULT_CONFIG, ...config}` merge done by every breaker method. -/
def mergeCBConfig (p : CircuitBreakerProfile) : CircuitBreakerConfig :=
  { failureThreshold := p.failureThreshold.getD DEFAULT_CB_CONFIG.failureThreshold,
    timeout := p.timeout.getD DEFAULT_CB_CONFIG.timeout,
    halfOpenAttempts := p.halfOpenAttempts.getD DEFAULT_CB_CONFIG.halfOpenAttempts,
    successThreshold := p.successThreshold.getD DEFAULT_CB_CONFIG.successThreshold,
    monitoringPeriod := p.monitoringPeriod.getD DEFAULT_CB_CONFIG.monitoringPeriod }

/-- `FeaturesConfig` (only `metrics.enabled` is ever read from `metrics`). -/
structure FeaturesConfig where
  cache : Option (FeatureToggle CacheConfig)
  circuitBreaker : Option (FeatureToggle CircuitBreakerProfile)
  deduplication : Option (FeatureToggle DeduplicationConfig)
  sizeLimits : Option SizeLimitsFeature
  metricsEnabled : Bool
  auth : Option AuthFeatureConfig

/-- `ProxyConfig`. -/
structure ProxyConfig where
  routes : List Route
  allowedOrigins : Option (List Str)
  blockedOrigins : Option (List Str)
  originChecksEnabled : Option Bool
  turnstileSecretKey : Option Str
  rateLimit : Option RateLimitSettings
  features : Option FeaturesConfig
  version : Str

/-- `resolveCache`: feature enabled and the route's profile name resolves. -/
def resolveCache (config : ProxyConfig) (route : Route) : Option CacheConfig :=
  match config.features with
  | none => none
  | some f =>
      match f.cache with
      | none => none
      | some ft =>
          if ft.enabled = false then none
          else
            match route.cache with
            | none => none
            | some name => if name = [] then none else alookup name ft.profiles

/-- `resolveCircuitBreaker`. -/
def resolveCircuitBreaker (config : ProxyConfig) (route : Route) :
    Option CircuitBreakerProfile :=
  match config.features with
  | none => none
  | some f =>
      match f.circuitBreaker with
      | none => none
      | some ft =>
          if ft.enabled = false then none
          else
            match route.circuitBreaker with
            | none => none
            | some name => if name = [] then none else alookup name ft.profiles

/-- `resolveDeduplication`. -/
def resolveDeduplication (config : ProxyConfig) (route : Route) :
    Option DeduplicationConfig :=
  match config.features with
  | none => none
  | some f =>
      match f.deduplication with
      | none => none
      | some ft =>
          if ft.enabled = false then none
          else
            match route.deduplication with
            | none => none
            | some name => if name = [] then none else alookup name ft.profiles

/-- `resolveSizeLimits`: per-route profile, else the feature's default. -/
def resolveSizeLimits (config : ProxyConfig) (route : Route) : Option SizeLimits :=
  match config.features with
  | none => none
  | some f =>
      match f.sizeLimits with
      | none => none
      | some ft =>
          if ft.enabled = false then none
          else
            match route.sizeLimits with
            | some name =>
                if name = [] then ft.defaultLimits else alookup name ft.profiles
            | none => ft.defaultLimits

/-- `resolveAuth`: yields the whole auth feature block when the route's
profile name exists. -/
def resolveAuth (config : ProxyConfig) (route : Route) : Option AuthFeatureConfig :=
  match config.features with
  | none => none
  | some f =>
      match f.auth with
      | none => none
      | some a =>
          if a.enabled = false then none
          else
            match route.auth with
            | none => none
            | some name =>
                if name = [] then none
                else
                  match alookup name a.profiles with
                  | some _ => some a
                  | none => none

/-! ## Blocklist, origin and size checks (`src/router.ts`,
`src/validation.ts`) -/

/-- `isCallerBlocked`: Origin / Referer / cf-worker substring blocklist. -/
def isCallerBlocked (req : RequestM) (config : ProxyConfig) : Bool :=
  match config.blockedOrigins with
  | none => false
  | some bl =>
      if bl = [] then false
      else
        let origin := getHeader req.headers (str "Origin")
        let referer := getHeader req.headers (str "Referer")
        let cfWorker := getHeader req.headers (str "cf-worker")
        let hit := fun (h : Option Str) (blocked : Str) =>
          match h with
          | some s => s != [] && strIncludes blocked s
          | none => false
        bl.any (fun blocked =>
          hit origin blocked || hit referer blocked || hit cfWorker blocked)

/-- `isOriginAllowed`.  Hostname extraction (`new URL(origin).hostname`) is an
oracle; `none` models the `catch` branch, which falls back to the raw origin. -/
def isOriginAllowed (parseOriginHostname : Str → Option Str)
    (origin : Option Str) (config : ProxyConfig) : Bool :=
  if config.originChecksEnabled = some false then true
  else
    match config.allowedOrigins with
    | none => true
    | some allowedOrigins =>
        if allowedOrigins = [] then true
        else
          match origin with
          | none => true
          | some o =>
              if o = [] then true
              else
                let originHostname := (parseOriginHostname o).getD o
                allowedOrigins.any (fun allowed =>
                  allowed == o || allowed == originHostname ||
                    (if (str "*.").isPrefixOf allowed then
                      let domain := allowed.drop 2
                      ('.' :: domain).isSuffixOf originHostname ||
                        originHostname == domain
                    else false))

/-- `ValidationResult` (error text abstracted). -/
structure ValidationResult where
  valid : Bool
  statusCode : Option Nat
deriving DecidableEq

/-- JS `parseInt(s, 10)` on a header value: optional sign then leading
digits; `none` models `NaN`.  (Leading-whitespace skipping is omitted.) -/
def jsParseInt (s : Str) : Option Int :=
  let signAndRest : Int × Str :=
    match s with
    | '-' :: r => (-1, r)
    | '+' :: r => (1, r)
    | r => (1, r)
  let digits := signAndRest.2.takeWhile Char.isDigit
  if digits = [] then none
  else
    some (signAndRest.1 *
      (digits.foldl (fun acc c => acc * 10 + (c.toNat - '0'.toNat)) 0 : Nat))

/-- `validateRequestSize`: URL length (414), body size (413), header count
and total header size (431).  A zero limit is falsy in JS and disables the
corresponding check. -/
def validateRequestSize (req : RequestM) (limits : SizeLimits) : ValidationResult :=
  if limits.maxUrlLength.getD 0 != 0 &&
      decide (limits.maxUrlLength.getD 0 < req.urlStr.length) then
    { valid := false, statusCode := some 414 }
  else
    let contentLength := getHeader req.headers (str "Content-Length")
    let bodyBad :=
      match contentLength, limits.maxBodySize with
      | some cl, some maxB =>
          cl != [] && maxB != 0 &&
            (match jsParseInt cl with
             | some v => decide ((maxB : Int) < v)
             | none => false)
      | _, _ => false
    if bodyBad then { valid := false, statusCode := some 413 }
    else
      let headerCount := req.headers.length
      let totalHeaderSize := (req.headers.map (fun p => p.1.length + p.2.length + 4)).sum
      if limits.maxHeaderCount.getD 0 != 0 &&
          decide (limits.maxHeaderCount.getD 0 < headerCount) then
        { valid := false, statusCode := some 431 }
      else if limits.maxHeaderSize.getD 0 != 0 &&
          decide (limits.maxHeaderSize.getD 0 < totalHeaderSize) then
        { valid := false, statusCode := some 431 }
      else { valid := true, statusCode := none }

/-! ## Request deduplicator (`src/deduplication.ts`)

A pending entry's promise is modelled by its eventual response value; a
`clone()` of it has the same status and body. -/

/-- `defaultWindowMs`. -/
def DEDUP_DEFAULT_WINDOW_MS : Nat := 5000

/-- `PendingRequest`. -/
structure DedupEntry where
  result : Resp
  timestamp : Nat
deriving DecidableEq

/-- `generateRequestHash`: method, path, query, plus the allowlisted headers
that are present (and truthy). -/
def generateRequestHash (req : RequestM) : Str :=
  let parts := [req.method, req.url.pathname, req.url.search]
  let relevantHeaders :=
    [str "accept", str "accept-language", str "content-type", str "authorization"]
  let parts := parts ++ relevantHeaders.filterMap (fun h =>
    match getHeader req.headers h with
    | some v => if v = [] then none else some (h ++ ':' :: v)
    | none => none)
  List.intercalate (str "::") parts

/-- `hasPending`: a too-old entry is deleted and reported absent. -/
def hasPending (now : Nat) (requestHash : Str) (m : List (Str × DedupEntry)) :
    Bool × List (Str × DedupEntry) :=
  match alookup requestHash m with
  | none => (false, m)
  | some p =>
      if DEDUP_DEFAULT_WINDOW_MS < now - p.timestamp then
        (false, adelete requestHash m)
      else (true, m)

/-- `getPending`. -/
def getPending (requestHash : Str) (m : List (Str × DedupEntry)) : Option Resp :=
  (alookup requestHash m).map (fun p => p.result)

/-- `register`: stores an in-flight handle.  (Defined by the deduplicator but
never invoked by the request pipeline.) -/
def dedupRegister (now : Nat) (requestHash : Str) (result : Resp)
    (m : List (Str × DedupEntry)) : List (Str × DedupEntry) :=
  aset requestHash { result := result, timestamp := now } m

/-- `cleanup`: the periodic sweep. -/
def dedupCleanup (now : Nat) (m : List (Str × DedupEntry)) :
    List (Str × DedupEntry) :=
  m.filter (fun p => ¬ DEDUP_DEFAULT_WINDOW_MS < now - p.2.timestamp)

/-! ## The request pipeline up to backend dispatch (`proxyRequest`,
`src/router.ts`)

`proxyRequest` is embedded up to the point where it hands the request to
`fetch`: everything after the dispatch (response streaming, cache store,
breaker bookkeeping on the response) happens once the backend has answered
and is not needed by the claims below.  All shared mutable state the
pre-dispatch stages touch is threaded through `PipelineState`. -/

/-- The three instance-local state spaces the pipeline mutates. -/
structure PipelineState where
  rl : RLStore
  dedup : List (Str × DedupEntry)
  cb : List (Str × BreakerEntry)
deriving DecidableEq

/-- External collaborators: Turnstile, URL parsing, the adapter registry and
the KV namespaces. -/
structure PipelineEnv where
  turnstileOk : Str → Bool
  parseUrl : Str → UrlM
  parseOriginHostname : Str → Option Str
  adapters : List (Str × AuthAdapterM)
  authKv : AuthKvOracle
  cacheKv : Option (Str → Option CacheEntryM)

/-- How `proxyRequest` terminates before dispatching (or dispatches). -/
inductive PreOutcome
  | blockedPolicy (resp : Resp)
  | turnstileFailed (resp : Resp)
  | rateLimitedPrelim (resp : Resp)
  | noRoute (resp : Resp)
  | sizeRejected (resp : Resp)
  | rateLimitedRoute (resp : Resp)
  | originBlocked (resp : Resp)
  | authFailed (resp : Resp)
  | cacheHit (resp : Resp)
  | dedupJoined (resp : Resp)
  | breakerOpen (resp : Resp)
  | dispatch (targetUrl : Str) (req : RequestM)
deriving DecidableEq

/-- Whether an outcome is one of the two rate-limit rejections (the only
stages that answer 429 with `Retry-After`). -/
def isRateLimitedOutcome (o : PreOutcome) : Bool :=
  match o with
  | .rateLimitedPrelim _ => true
  | .rateLimitedRoute _ => true
  | _ => false

/-- The 429 answer (body abstracted; status and `Retry-After` exact). -/
def resp429 (retryAfter : Nat) : Resp :=
  { status := 429, statusText := [],
    headers := [(str "Content-Type", str "application/json"),
                (str "Retry-After", natToStr retryAfter)],
    body := str "Too Many Requests" }

/-- 403 for the blocklist. -/
def respForbiddenBlocked : Resp :=
  { status := 403, statusText := [], headers := [],
    body := str "Forbidden: Access blocked by policy" }

/-- 403 for a failed Turnstile check. -/
def respTurnstile : Resp :=
  { status := 403, statusText := [],
    headers := [(str "Content-Type", str "application/json")],
    body := str "Turnstile verification failed" }

/-- 404 when no route matches. -/
def respNoRoute : Resp :=
  { status := 404, statusText := [], headers := [],
    body := str "No matching route found" }

/-- 403 for a disallowed Origin. -/
def respOriginForbidden : Resp :=
  { status := 403, statusText := [], headers := [],
    body := str "Forbidden: Origin not allowed" }

/-- 503 when the breaker is open. -/
def respBreakerOpen : Resp :=
  { status := 503, statusText := [],
    headers := [(str "Content-Type", str "application/json"),
                (str "Retry-After", str "60")],
    body := str "Service Unavailable" }

/-- Size-limit rejection (413/414/431). -/
def respSizeRejected (status : Nat) : Resp :=
  { status := status, statusText := [], headers := [],
    body := str "Request size validation failed" }

/-- The client identity: `CF-Connecting-IP` or the `'unknown'` sentinel. -/
def clientIpOf (req : RequestM) : Str :=
  (getHeader req.headers (str "CF-Connecting-IP")).getD (str "unknown")

/-- Merge the adapter's `upstreamHeaders` into the request. -/
def injectUpstreamHeaders (r : AuthResultM) (req : RequestM) : RequestM :=
  match r.upstreamHeaders with
  | some hs =>
      { req with headers := hs.foldl (fun acc p => setHeader p.1 p.2 acc) req.headers }
  | none => req

/-- `getState`-backed `canRequest` on the per-backend map. -/
def cbCanRequest (backend : Str) (cfg : CircuitBreakerConfig) (now : Int)
    (m : List (Str × BreakerEntry)) : Bool × List (Str × BreakerEntry) :=
  let e := (alookup backend m).getD ⟨initialBreakerState now, []⟩
  let (ok, e') := canRequest cfg now e
  (ok, aset backend e' m)

/-- The target-URL build, circuit-breaker gate and dispatch (the tail of
`proxyRequest`). -/
def pdDispatchStage (env : PipelineEnv) (config : ProxyConfig) (now : Nat)
    (route : Route) (remainingPath : Str) (req : RequestM) (st : PipelineState) :
    PreOutcome × PipelineState :=
  -- build the rewritten target URL
  let targetUrl0 := env.parseUrl route.target
  let targetUrl :=
    { targetUrl0 with
      pathname := joinPaths targetUrl0.pathname remainingPath,
      search := req.url.search }
  let fullTargetUrl := urlToString targetUrl
  -- circuit-breaker gate
  let cbStep :=
    match resolveCircuitBreaker config route with
    | some profile =>
        let cr := cbCanRequest route.target (mergeCBConfig profile) (now : Int) st.cb
        ((if cr.1 then none else some ()), { st with cb := cr.2 })
    | none => ((none : Option Unit), st)
  match cbStep.1 with
  | some _ => (.breakerOpen respBreakerOpen, cbStep.2)
  | none => (.dispatch fullTargetUrl req, cbStep.2)

/-- The dedup-lookup stage (GET only).  The pipeline only ever reads the
registry; no pre-dispatch stage calls `register`. -/
def pdDedupStage (env : PipelineEnv) (config : ProxyConfig) (now : Nat)
    (route : Route) (remainingPath : Str) (req : RequestM) (st : PipelineState) :
    PreOutcome × PipelineState :=
  let dedupStep :=
    match resolveDeduplication config route with
    | some _ =>
        if req.method == str "GET" then
          let requestHash := generateRequestHash req
          let hp := hasPending now requestHash st.dedup
          let st := { st with dedup := hp.2 }
          if hp.1 then
            match getPending requestHash st.dedup with
            | some resp => (some resp, st)
            | none => ((none : Option Resp), st)
          else ((none : Option Resp), st)
        else ((none : Option Resp), st)
    | none => ((none : Option Resp), st)
  match dedupStep.1 with
  | some resp => (.dedupJoined resp, dedupStep.2)
  | none => pdDispatchStage env config now route remainingPath req dedupStep.2

/-- The cache-lookup stage (GET only, bypass header honoured). -/
def pdCacheStage (env : PipelineEnv) (config : ProxyConfig) (now : Nat)
    (route : Route) (remainingPath : Str) (req : RequestM) (st : PipelineState) :
    PreOutcome × PipelineState :=
  let cacheStop :=
    match resolveCache config route with
    | some cc =>
        if req.method == str "GET" && !(shouldBypassCache req.headers cc) then
          let cacheKey := generateCacheKey req.method req.urlStr cc.varyBy req.headers none
          let stored :=
            match env.cacheKv with
            | some kv => kv cacheKey
            | none => none
          match cacheManagerGet now stored with
          | .fresh e => some (createResponseFromCache e false)
          | .staleHit e => some (createResponseFromCache e true)
          | _ => none
        else none
    | none => none
  match cacheStop with
  | some resp => (.cacheHit resp, st)
  | none => pdDedupStage env config now route remainingPath req st

/-- The auth stage: on failure answer with the adapter response (or the
generic 401); on success inject the upstream headers into the request. -/
def pdAuthStage (env : PipelineEnv) (config : ProxyConfig) (now : Nat)
    (route : Route) (remainingPath : Str) (req : RequestM) (st : PipelineState) :
    PreOutcome × PipelineState :=
  let authStep : Option Resp × RequestM :=
    match resolveAuth config route with
    | some featureCfg =>
        match route.auth with
        | some name =>
            match alookup name featureCfg.profiles with
            | some profileCfg =>
                let r := runAuth env.adapters env.authKv profileCfg featureCfg req
                if r.success then (none, injectUpstreamHeaders r req)
                else (some (r.response.getD genericUnauthorized), req)
            | none => (none, req)  -- unreachable: resolveAuth checked it
        | none => (none, req)
    | none => (none, req)
  match authStep with
  | (some resp, _) => (.authFailed resp, st)
  | (none, req2) => pdCacheStage env config now route remainingPath req2 st

/-- The origin check. -/
def pdOriginStage (env : PipelineEnv) (config : ProxyConfig) (now : Nat)
    (route : Route) (remainingPath : Str) (req : RequestM) (st : PipelineState) :
    PreOutcome × PipelineState :=
  let origin := getHeader req.headers (str "Origin")
  if !(isOriginAllowed env.parseOriginHostname origin config) then
    (.originBlocked respOriginForbidden, st)
  else pdAuthStage env config now route remainingPath req st

/-- The route-scoped rate-limit check (skipped when rate limiting is off or
the client identity is the `'unknown'` sentinel — `rlOn` carries that guard). -/
def pdRouteRateLimitStage (env : PipelineEnv) (config : ProxyConfig) (now : Nat)
    (clientIp : Str) (rlOn : Bool) (route : Route) (remainingPath : Str)
    (req : RequestM) (st : PipelineState) : PreOutcome × PipelineState :=
  let routeStep :=
    if rlOn then
      let (res, rl') := checkRateLimit clientIp config.rateLimit (some route) now st.rl
      (if res.allowed then none else some res, { st with rl := rl' })
    else ((none : Option RateLimitResult), st)
  match routeStep.1 with
  | some res => (.rateLimitedRoute (resp429 (res.retryAfter.getD 0)), routeStep.2)
  | none => pdOriginStage env config now route remainingPath req routeStep.2

/-- The request-size validation stage. -/
def pdSizeStage (env : PipelineEnv) (config : ProxyConfig) (now : Nat)
    (clientIp : Str) (rlOn : Bool) (route : Route) (remainingPath : Str)
    (req : RequestM) (st : PipelineState) : PreOutcome × PipelineState :=
  let sizeStop :=
    match resolveSizeLimits config route with
    | some limits =>
        let v := validateRequestSize req limits
        if v.valid then none else some (v.statusCode.getD 400)
    | none => none
  match sizeStop with
  | some status => (.sizeRejected (respSizeRejected status), st)
  | none => pdRouteRateLimitStage env config now clientIp rlOn route remainingPath req st

/-- `proxyRequest` up to dispatch.  `now` is the single observation of
`Date.now()` for this request; the stage functions above are the successive
blocks of the source function. -/
def preDispatch (env : PipelineEnv) (config : ProxyConfig) (now : Nat)
    (st : PipelineState) (req : RequestM) : PreOutcome × PipelineState :=
  if isCallerBlocked req config then (.blockedPolicy respForbiddenBlocked, st)
  else if config.turnstileSecretKey.isSome &&
      !(env.turnstileOk ((getHeader req.headers (str "X-Turnstile-Token")).getD [])) then
    (.turnstileFailed respTurnstile, st)
  else
    let clientIp := clientIpOf req
    let rlOn := ((config.rateLimit.map RateLimitSettings.enabled).getD false) &&
      clientIp != str "unknown"
    -- preliminary rate limit, before route matching
    let prelimStep :=
      if rlOn then
        let (res, rl') := checkRateLimit clientIp config.rateLimit none now st.rl
        (if res.allowed then none else some res, { st with rl := rl' })
      else ((none : Option RateLimitResult), st)
    match prelimStep.1 with
    | some res => (.rateLimitedPrelim (resp429 (res.retryAfter.getD 0)), prelimStep.2)
    | none =>
      match findMatchingRoute req.url.pathname config.routes with
      | none => (.noRoute respNoRoute, prelimStep.2)
      | some m =>
          pdSizeStage env config now clientIp rlOn m.route m.remainingPath req
            prelimStep.2

/-! ## Scenario fixtures

Concrete configurations and requests used by the closed scenario parts of the
claims. -/

/-- An environment with no external collaborators configured.  `parseUrl`
parses the one target URL the scenarios use. -/
def envBase : PipelineEnv :=
  { turnstileOk := fun _ => true,
    parseUrl := fun s =>
      if s = str "https://svc.test" then ⟨str "https://svc.test", str "/", []⟩
      else ⟨s, str "/", []⟩,
    parseOriginHostname := fun _ => none,
    adapters := [],
    authKv := fun _ => none,
    cacheKv := none }

/-- The `/api → https://svc.test` route with no features. -/
def routeApi : Route :=
  { pfx := str "/api", target := str "https://svc.test",
    rateLimitMultiplier := none, cache := none, circuitBreaker := none,
    deduplication := none, sizeLimits := none, auth := none }

/-- A bare config holding only `routeApi`. -/
def cfgBase : ProxyConfig :=
  { routes := [routeApi], allowedOrigins := none, blockedOrigins := none,
    originChecksEnabled := none, turnstileSecretKey := none, rateLimit := none,
    features := none, version := str "1" }

/-- `GET /api/a?x=1`. -/
def reqApi : RequestM :=
  { method := str "GET", urlStr := str "https://gw.test/api/a?x=1",
    url := ⟨str "https://gw.test", str "/api/a", str "?x=1"⟩,
    headers := [] }

/-- Empty pipeline state. -/
def stEmpty : PipelineState := { rl := ⟨[], 0⟩, dedup := [], cb := [] }

/-- `routeApi` with the `0.2` rate-limit multiplier (claim C4's scenario). -/
def routeC4 : Route := { routeApi with rateLimitMultiplier := some (1 / 5 : ℚ) }

/-- Config with `requestsPerWindow = 5`, `windowSeconds = 60` and `routeC4`. -/
def cfgC4 : ProxyConfig :=
  { cfgBase with routes := [routeC4],
                 rateLimit := some { enabled := true, requestsPerWindow := 5, windowSeconds := 60 } }

/-- `reqApi` carrying a client IP. -/
def reqC4 : RequestM :=
  { reqApi with headers := [(str "CF-Connecting-IP", str "1.2.3.4")] }

/-- `routeApi` with a deduplication profile (claim C1's scenario). -/
def routeC1 : Route := { routeApi with deduplication := some (str "default") }

/-- Config enabling deduplication with a `default` profile. -/
def cfgC1 : ProxyConfig :=
  { cfgBase with routes := [routeC1],
                 features := some
                   { cache := none, circuitBreaker := none,
                     deduplication := some ⟨true, [(str "default", ⟨some 5000⟩)]⟩,
                     sizeLimits := none, metricsEnabled := false, auth := none } }

/-- A request with no route to match (claim C6's scenario). -/
def reqNoRoute : RequestM :=
  { method := str "GET", urlStr := str "https://gw.test/other",
    url := ⟨str "https://gw.test", str "/other", []⟩, headers := [] }

/-- The 403 an adapter supplies on failure (claim C8's scenario). -/
def respAdapter403 : Resp :=
  { status := 403, statusText := [],
    headers := [(str "Content-Type", str "application/json")],
    body := str "forbidden by adapter" }

/-- An adapter that rejects with its own 403 response. -/
def adapter403 : AuthAdapterM :=
  { name := str "deny", cacheKeyFn := fun _ => none,
    verify := fun _ => .ok ⟨false, none, some respAdapter403⟩ }

/-- An adapter that rejects without supplying a response. -/
def adapterNoResp : AuthAdapterM :=
  { name := str "deny", cacheKeyFn := fun _ => none,
    verify := fun _ => .ok ⟨false, none, none⟩ }

/-- `envBase` with `adapter403` registered. -/
def envC8a : PipelineEnv := { envBase with adapters := [(str "deny", adapter403)] }

/-- `envBase` with `adapterNoResp` registered. -/
def envC8b : PipelineEnv := { envBase with adapters := [(str "deny", adapterNoResp)] }

/-- `routeApi` guarded by the `p` auth profile. -/
def routeC8 : Route := { routeApi with auth := some (str "p") }

/-- Config enabling auth with the `p → deny` profile. -/
def cfgC8 : ProxyConfig :=
  { cfgBase with routes := [routeC8],
                 features := some
                   { cache := none, circuitBreaker := none, deduplication := none,
                     sizeLimits := none, metricsEnabled := false,
                     auth := some
                       { enabled := true, cache := none,
                         profiles := [(str "p", ⟨str "deny"⟩)] } } }

/-- A route on `/other`, used as a non-matching earlier route. -/
def routeOther : Route := { routeApi with pfx := str "/other" }

/-- A breaker config with `failureThreshold = 3`. -/
def cbCfgW : CircuitBreakerConfig := ⟨3, 60000, 3, 2, 60000⟩

/-- An OPEN breaker whose next attempt is at `t = 5`. -/
def cbOpenEntry : BreakerEntry :=
  ⟨{ initialBreakerState 0 with state := .opened, nextAttemptTime := 5 }, []⟩

/-- A HALF_OPEN breaker. -/
def cbHalfOpenEntry : BreakerEntry :=
  ⟨{ initialBreakerState 0 with state := .halfOpen }, []⟩

/-- A route carrying the falsy multiplier `0` (claim C9). -/
def routeC9 : Route := { routeApi with rateLimitMultiplier := some 0 }

/-- A cache entry that expired at `t = 1000` with a 2-second stale window. -/
def cacheEntryW : CacheEntryM :=
  { response := ⟨200, [], [], str "ok"⟩, cachedAt := 0, expiresAt := 1000,
    route := str "/api", cacheKey := str "k", swrConfig := some 2 }

/-! ## Association-list lemmas -/

theorem find?_append_of_none {p : α → Bool} (l₁ l₂ : List α)
    (h : l₁.find? p = none) : (l₁ ++ l₂).find? p = l₂.find? p := by
  induction l₁ with
  | nil => simp
  | cons a t ih =>
      by_cases ha : p a = true
      · rw [List.find?_cons_of_pos _ ha] at h
        exact absurd h (by simp)
      · rw [List.find?_cons_of_neg _ ha] at h
        rw [List.cons_append, List.find?_cons_of_neg _ ha]
        exact ih h

theorem find?_map_replace {α : Type u} (q : α → Bool) (r : α) (l : List α)
    (h : (l.find? q).isSome) (hr : q r = true) :
    (l.map (fun x => if q x then r else x)).find? q = some r := by
  induction l with
  | nil => simp at h
  | cons a t ih =>
      by_cases ha : q a = true
      · simp [List.find?, ha, hr]
      · have ha' : q a = false := by
          revert ha; cases q a <;> simp
        simp only [List.map_cons, if_neg ha]
        simp only [List.find?, ha'] at h ⊢
        exact ih h

theorem alookup_aset_self (k : Str) (v : α) (l : List (Str × α)) :
    alookup k (aset k v l) = some v := by
  unfold alookup aset
  by_cases hs : (l.find? (fun p => p.1 == k)).isSome
  · have hmr := find?_map_replace _ (k, v) l hs (by exact beq_self_eq_true k)
    rw [if_pos hs, hmr]
    rfl
  · rw [if_neg hs]
    have h0 : l.find? (fun p => p.1 == k) = none := by
      cases hfind : l.find? (fun p => p.1 == k) with
      | none => rfl
      | some x => rw [hfind] at hs; exact absurd rfl hs
    rw [find?_append_of_none _ _ h0]
    simp [List.find?]

theorem alookup_cons_of_pos {α : Type u} (k : Str) (p : Str × α)
    (t : List (Str × α)) (h : (p.1 == k) = true) :
    alookup k (p :: t) = some p.2 := by
  unfold alookup
  rw [List.find?_cons_of_pos (p := fun x : Str × α => x.1 == k) _ h]
  rfl

theorem alookup_cons_of_neg {α : Type u} (k : Str) (p : Str × α)
    (t : List (Str × α)) (h : ¬ (p.1 == k) = true) :
    alookup k (p :: t) = alookup k t := by
  unfold alookup
  rw [List.find?_cons_of_neg (p := fun x : Str × α => x.1 == k) _ h]

theorem alookup_eq_none_of_foral {α : Type u} (k : Str) (l : List (Str × α))
    (h : ∀ x ∈ l, ¬ (x.1 == k) = true) : alookup k l = none := by
  unfold alookup
  rw [List.find?_eq_none.mpr h]
  rfl

theorem keyUnique_cons_tail {α : Type u} (k : Str) (p : Str × α)
    (t : List (Str × α)) (hu : keyUnique k (p :: t)) : keyUnique k t := by
  unfold keyUnique at hu ⊢
  by_cases hp : (p.1 == k) = true
  · rw [List.filter_cons_of_pos (p := fun x : Str × α => x.1 == k) hp] at hu
    simp only [List.length_cons] at hu
    omega
  · rwa [List.filter_cons_of_neg (p := fun x : Str × α => x.1 == k) hp] at hu

theorem keyUnique_cons_head {α : Type u} (k : Str) (p : Str × α)
    (t : List (Str × α)) (hu : keyUnique k (p :: t)) (hp : (p.1 == k) = true) :
    ∀ x ∈ t, ¬ (x.1 == k) = true := by
  unfold keyUnique at hu
  rw [List.filter_cons_of_pos (p := fun x : Str × α => x.1 == k) hp] at hu
  simp only [List.length_cons] at hu
  have h0 : (t.filter (fun q => q.1 == k)).length = 0 := by omega
  rw [List.length_eq_zero] at h0
  intro x hx hxk
  have : x ∈ t.filter (fun q => q.1 == k) := List.mem_filter.mpr ⟨hx, hxk⟩
  rw [h0] at this
  exact absurd this (List.not_mem_nil x)

theorem alookup_filter_keyUnique {α : Type u} (k : Str) (q : Str × α → Bool)
    (l : List (Str × α)) (hu : keyUnique k l) :
    alookup k (l.filter q) =
      match alookup k l with
      | some v => if q (k, v) = true then some v else none
      | none => none := by
  induction l with
  | nil => rfl
  | cons p t ih =>
      obtain ⟨a, b⟩ := p
      by_cases hp : ((a, b).1 == k) = true
      · have hak : a = k := eq_of_beq hp
        rw [alookup_cons_of_pos _ _ _ hp]
        have hnone : ∀ x ∈ t, ¬ (x.1 == k) = true := keyUnique_cons_head _ _ _ hu hp
        have hqeq : q (k, b) = q (a, b) := by rw [hak]
        by_cases hq : q (a, b) = true
        · rw [List.filter_cons_of_pos hq, alookup_cons_of_pos _ _ _ hp]
          simp [hqeq, hq]
        · rw [List.filter_cons_of_neg hq]
          have hn2 : alookup k (t.filter q) = none := by
            apply alookup_eq_none_of_foral
            intro x hx
            exact hnone x (List.mem_of_mem_filter hx)
          rw [hn2]
          simp [hqeq, hq]
      · rw [alookup_cons_of_neg _ _ _ hp]
        by_cases hq : q (a, b) = true
        · rw [List.filter_cons_of_pos hq, alookup_cons_of_neg _ _ _ hp]
          exact ih (keyUnique_cons_tail _ _ _ hu)
        · rw [List.filter_cons_of_neg hq]
          exact ih (keyUnique_cons_tail _ _ _ hu)

theorem keyUnique_filter {α : Type u} (k : Str) (q : Str × α → Bool)
    (l : List (Str × α)) (hu : keyUnique k l) : keyUnique k (l.filter q) := by
  unfold keyUnique at hu ⊢
  calc ((l.filter q).filter (fun p => p.1 == k)).length
      ≤ (l.filter (fun p => p.1 == k)).length :=
        List.Sublist.length_le (List.Sublist.filter _ (List.filter_sublist l))
    _ ≤ 1 := hu

theorem filter_key_map_replace_length {α : Type u} (k : Str) (v : α)
    (l : List (Str × α)) :
    ((l.map (fun p => if p.1 == k then (k, v) else p)).filter
        (fun p => p.1 == k)).length =
      (l.filter (fun p => p.1 == k)).length := by
  induction l with
  | nil => rfl
  | cons p t ih =>
      by_cases hp : (p.1 == k) = true
      · simp only [List.map_cons, if_pos hp]
        rw [List.filter_cons_of_pos (p := fun x : Str × α => x.1 == k) (by simp),
          List.filter_cons_of_pos (p := fun x : Str × α => x.1 == k) hp]
        simp only [List.length_cons]
        omega
      · simp only [List.map_cons, if_neg hp]
        rw [List.filter_cons_of_neg (p := fun x : Str × α => x.1 == k) hp,
          List.filter_cons_of_neg (p := fun x : Str × α => x.1 == k) hp]
        exact ih

theorem keyUnique_aset {α : Type u} (k : Str) (v : α) (l : List (Str × α))
    (hu : keyUnique k l) : keyUnique k (aset k v l) := by
  unfold aset
  split
  · unfold keyUnique at hu ⊢
    rw [filter_key_map_replace_length]
    exact hu
  · rename_i hne
    have h0 : l.find? (fun p => p.1 == k) = none := by
      cases hfind : l.find? (fun p => p.1 == k) with
      | none => rfl
      | some x => rw [hfind] at hne; exact absurd rfl hne
    have hforal : ∀ x ∈ l, ¬ (x.1 == k) = true := List.find?_eq_none.mp h0
    unfold keyUnique
    rw [List.filter_append, List.filter_eq_nil_iff.mpr hforal]
    simp

theorem aset_length_le {α : Type u} (k : Str) (v : α) (l : List (Str × α)) :
    (aset k v l).length ≤ l.length + 1 := by
  unfold aset
  split
  · simp
  · simp

theorem aset_length_of_present {α : Type u} (k : Str) (v : α) (l : List (Str × α))
    (h : (l.find? (fun p => p.1 == k)).isSome) :
    (aset k v l).length = l.length := by
  unfold aset
  rw [if_pos h]
  simp

theorem getHeader_setHeader_self (name value : Str) (hs : List (Str × Str)) :
    getHeader (setHeader name value hs) name = some value := by
  unfold getHeader setHeader
  by_cases hf : (hs.find? (fun p =>
      p.1.map Char.toLower == name.map Char.toLower)).isSome
  · have hmr := find?_map_replace _ (name, value) hs hf
      (by exact beq_self_eq_true (name.map Char.toLower))
    rw [if_pos hf, hmr]
    rfl
  · rw [if_neg hf]
    have h0 : hs.find? (fun p => p.1.map Char.toLower == name.map Char.toLower) = none := by
      cases hfind : hs.find? (fun p => p.1.map Char.toLower == name.map Char.toLower) with
      | none => rfl
      | some x => rw [hfind] at hf; exact absurd rfl hf
    rw [find?_append_of_none _ _ h0]
    simp [List.find?]

/-! ## Circuit-breaker lemmas and claim C3 -/

theorem transitionTo_state (now : Int) (newState : CircuitState)
    (timeoutArg : Option Int) (s : CircuitBreakerState) :
    (transitionTo now newState timeoutArg s).state = newState := by
  unfold transitionTo
  split
  · rfl
  · split
    · rfl
    · split <;> rfl

theorem transitionTo_totalRequests (now : Int) (newState : CircuitState)
    (timeoutArg : Option Int) (s : CircuitBreakerState) :
    (transitionTo now newState timeoutArg s).totalRequests = 0 := by
  unfold transitionTo
  split
  · rfl
  · split
    · rfl
    · split <;> rfl

theorem recordSuccess_state_opened (cfg : CircuitBreakerConfig) (t : Int)
    (e : BreakerEntry) (h : e.st.state = .opened) :
    (recordSuccess cfg t e).st.state = .opened := by
  unfold recordSuccess
  rw [if_neg]
  · exact h
  · intro hc
    have hA : e.st.state = CircuitState.halfOpen := hc.1
    rw [h] at hA
    exact CircuitState.noConfusion hA

theorem recordSuccess_step_halfOpen (cfg : CircuitBreakerConfig) (now : Int)
    (e : BreakerEntry) (_h1 : e.st.state = .halfOpen)
    (h2 : ¬ cfg.successThreshold ≤ e.st.successes + 1) :
    recordSuccess cfg now e =
      ⟨{ e.st with successes := e.st.successes + 1,
                   totalRequests := e.st.totalRequests + 1 }, e.history⟩ := by
  unfold recordSuccess
  rw [if_neg]
  intro hc
  exact h2 hc.2

theorem recordSuccess_closes (cfg : CircuitBreakerConfig) (now : Int)
    (e : BreakerEntry) (h1 : e.st.state = .halfOpen)
    (h2 : cfg.successThreshold ≤ e.st.successes + 1) :
    (recordSuccess cfg now e).st.state = .closed := by
  unfold recordSuccess
  rw [if_pos ⟨h1, h2⟩]
  exact transitionTo_state now .closed none _

theorem recordSuccess_keeps_state (cfg : CircuitBreakerConfig) (now : Int)
    (e : BreakerEntry)
    (h : ¬ (e.st.state = .halfOpen ∧ cfg.successThreshold ≤ e.st.successes + 1)) :
    (recordSuccess cfg now e).st.state = e.st.state := by
  unfold recordSuccess
  rw [if_neg (fun hcc => h ⟨hcc.1, hcc.2⟩)]

theorem iterate_recordSuccess_halfOpen (cfg : CircuitBreakerConfig) (now : Int) :
    ∀ (k : Nat) (e : BreakerEntry), e.st.state = .halfOpen →
      e.st.successes + k < cfg.successThreshold →
      ((fun x => recordSuccess cfg now x)^[k] e).st.state = .halfOpen ∧
      ((fun x => recordSuccess cfg now x)^[k] e).st.successes = e.st.successes + k := by
  intro k
  induction k with
  | zero => intro e h1 _; simpa using h1
  | succ n ih =>
      intro e h1 h2
      rw [Function.iterate_succ_apply]
      have hstep := recordSuccess_step_halfOpen cfg now e h1 (by omega)
      obtain ⟨ha, hb⟩ := ih (recordSuccess cfg now e)
        (by rw [hstep]; exact h1)
        (by rw [hstep]; show e.st.successes + 1 + n < cfg.successThreshold; omega)
      refine ⟨ha, ?_⟩
      rw [hb, hstep]
      show e.st.successes + 1 + n = e.st.successes + (n + 1)
      omega

/-- C3: the per-backend breaker's reachable transitions are exactly:
CLOSED→OPEN when the failures inside the trailing `monitoringPeriod` reach
`failureThreshold`; OPEN→HALF_OPEN on the first `canRequest` at or after
`nextAttemptTime`; HALF_OPEN→CLOSED after `successThreshold` successes while
half-open; HALF_OPEN→OPEN on any failure while half-open, resetting the probe
and success counters.  In particular no sequence of `recordSuccess` calls
alone moves an OPEN breaker to CLOSED. -/
theorem C3_circuit_breaker_transitions (cfg : CircuitBreakerConfig) (now : Int)
    (e : BreakerEntry) :
    ((canRequest cfg now e).2.st.state =
      if e.st.state = .opened ∧ e.st.nextAttemptTime ≤ now then .halfOpen
      else e.st.state)
    ∧ (e.st.state = .opened → ¬ e.st.nextAttemptTime ≤ now →
        (canRequest cfg now e).1 = false)
    ∧ ((recordSuccess cfg now e).st.state =
        if e.st.state = .halfOpen ∧ cfg.successThreshold ≤ e.st.successes + 1
        then .closed else e.st.state)
    ∧ (e.st.state = .closed →
        (recordFailure cfg now e).st.state =
          if cfg.failureThreshold ≤
              (cleanupHistory cfg.monitoringPeriod now (e.history ++ [now])).length
          then .opened else .closed)
    ∧ (e.st.state = .halfOpen →
        (recordFailure cfg now e).st.state = .opened ∧
        (recordFailure cfg now e).st.successes = 0 ∧
        (recordFailure cfg now e).st.totalRequests = 0)
    ∧ (e.st.state = .opened → (recordFailure cfg now e).st.state = .opened)
    ∧ (e.st.state = .opened → ∀ times : List Int,
        (times.foldl (fun acc t => recordSuccess cfg t acc) e).st.state = .opened)
    ∧ (1 ≤ cfg.successThreshold → e.st.state = .halfOpen → e.st.successes = 0 →
        ∀ k, k ≤ cfg.successThreshold →
          ((fun x => recordSuccess cfg now x)^[k] e).st.state =
            if k < cfg.successThreshold then .halfOpen else .closed) := by
  refine ⟨?_, ?_, ?_, ?_, ?_, ?_, ?_, ?_⟩
  · cases hst : e.st.state with
    | closed => simp [canRequest, hst]
    | opened =>
        by_cases hd : e.st.nextAttemptTime ≤ now
        · simp [canRequest, hst, hd, transitionTo_state]
        · simp [canRequest, hst, hd]
    | halfOpen =>
        by_cases ht : e.st.totalRequests < cfg.halfOpenAttempts <;>
          simp [canRequest, hst, ht]
  · intro hst hd
    simp [canRequest, hst, hd]
  · by_cases hc : e.st.state = .halfOpen ∧ cfg.successThreshold ≤ e.st.successes + 1
    · rw [if_pos hc]
      exact recordSuccess_closes cfg now e hc.1 hc.2
    · rw [if_neg hc]
      exact recordSuccess_keeps_state cfg now e hc
  · intro hst
    obtain ⟨⟨s1, s2, s3, s4, s5, s6, s7, s8⟩, hist⟩ := e
    simp only at hst
    subst hst
    by_cases hth : cfg.failureThreshold ≤
        (cleanupHistory cfg.monitoringPeriod now (hist ++ [now])).length
    · rw [if_pos hth]
      simp [recordFailure, hth, transitionTo_state]
    · rw [if_neg hth]
      simp [recordFailure, hth]
  · intro hst
    obtain ⟨⟨s1, s2, s3, s4, s5, s6, s7, s8⟩, hist⟩ := e
    simp only at hst
    subst hst
    refine ⟨?_, ?_, ?_⟩
    · simp [recordFailure, transitionTo_state]
    · simp [recordFailure, transitionTo]
    · simp [recordFailure, transitionTo_totalRequests]
  · intro hst
    obtain ⟨⟨s1, s2, s3, s4, s5, s6, s7, s8⟩, hist⟩ := e
    simp only at hst
    subst hst
    simp [recordFailure]
  · intro hst times
    induction times generalizing e with
    | nil => exact hst
    | cons t ts ih =>
        rw [List.foldl_cons]
        exact ih (recordSuccess cfg t e) (recordSuccess_state_opened cfg t e hst)
  · intro hthr h1 h2 k hk
    by_cases hklt : k < cfg.successThreshold
    · rw [if_pos hklt]
      exact (iterate_recordSuccess_halfOpen cfg now k e h1 (by omega)).1
    · rw [if_neg hklt]
      have hkeq : k = cfg.successThreshold := by omega
      have hsplit : cfg.successThreshold = (cfg.successThreshold - 1) + 1 := by omega
      rw [hkeq, hsplit, Function.iterate_succ_apply']
      obtain ⟨ha, hb⟩ :=
        iterate_recordSuccess_halfOpen cfg now (cfg.successThreshold - 1) e h1 (by omega)
      exact recordSuccess_closes cfg now _ ha (by rw [hb, h2]; omega)

/-- Witness for C3: an OPEN breaker before `nextAttemptTime` is gated, and a
failure recorded while HALF_OPEN reopens the breaker. -/
theorem C3_circuit_breaker_transitions_witness :
    (canRequest cbCfgW 2 cbOpenEntry).1 = false ∧
    (recordFailure cbCfgW 0 cbHalfOpenEntry).st.state = .opened :=
  ⟨(C3_circuit_breaker_transitions cbCfgW 2 cbOpenEntry).2.1 rfl (by decide),
   ((C3_circuit_breaker_transitions cbCfgW 0 cbHalfOpenEntry).2.2.2.2.1 rfl).1⟩

/-! ## Fixed-window multiplier claims -/

theorem checkRateLimit_routeCongr (ip : Str) (rl : RateLimitSettings)
    (r1 r2 : Route) (now : Nat) (st : RLStore)
    (hL : effectiveFixedLimit rl.requestsPerWindow (some r1)
      = effectiveFixedLimit rl.requestsPerWindow (some r2))
    (hp : r1.pfx = r2.pfx) :
    checkRateLimit ip (some rl) (some r1) now st =
      checkRateLimit ip (some rl) (some r2) now st := by
  unfold checkRateLimit
  simp only [Option.map_some']
  rw [hL, hp]

/-- C9: a route whose `rateLimitMultiplier` is `0` (falsy in JS) is treated as
having no multiplier: the fixed-window check uses the unmodified base
`requestsPerWindow` and behaves exactly as if the multiplier were absent. -/
theorem C9_zero_multiplier_ignored (ip : Str) (rl : RateLimitSettings) (rt : Route)
    (now : Nat) (st : RLStore) (h : rt.rateLimitMultiplier = some 0) :
    effectiveFixedLimit rl.requestsPerWindow (some rt) = (rl.requestsPerWindow : Int) ∧
    checkRateLimit ip (some rl) (some rt) now st =
      checkRateLimit ip (some rl)
        (some { rt with rateLimitMultiplier := none }) now st := by
  have h1 : effectiveFixedLimit rl.requestsPerWindow (some rt)
      = (rl.requestsPerWindow : Int) := by
    simp [effectiveFixedLimit, h]
  refine ⟨h1, checkRateLimit_routeCongr ip rl rt _ now st ?_ rfl⟩
  rw [h1]
  simp [effectiveFixedLimit]

/-- Witness for C9: multiplier `0` with base 5 yields effective limit 5. -/
theorem C9_zero_multiplier_ignored_witness :
    effectiveFixedLimit 5 (some routeC9) = 5 :=
  (C9_zero_multiplier_ignored (str "1.2.3.4") ⟨true, 5, 60⟩ routeC9 0 ⟨[], 0⟩ rfl).1

/-! ## Cache stale-while-revalidate claim -/

/-- C7: a cache read at `now` returns a fresh hit while `now ≤ expiresAt`;
past expiry but within the stale window it returns the entry marked stale
(`X-Cache-Status: STALE`, same status and body) and is not a miss; only past
the stale window is the entry deleted and the read reported as a miss. -/
theorem C7_stale_while_revalidate (now : Nat) (e : CacheEntryM) (swr : Nat)
    (hswr : e.swrConfig = some swr) :
    (now ≤ e.expiresAt → cacheManagerGet now (some e) = .fresh e)
    ∧ (e.expiresAt < now → now - e.expiresAt ≤ swr * 1000 →
        cacheManagerGet now (some e) = .staleHit e
        ∧ getHeader (createResponseFromCache e true).headers (str "X-Cache-Status")
            = some (str "STALE")
        ∧ (createResponseFromCache e true).status = e.response.status
        ∧ (createResponseFromCache e true).body = e.response.body)
    ∧ (e.expiresAt < now → swr * 1000 < now - e.expiresAt →
        cacheManagerGet now (some e) = .missExpired) := by
  refine ⟨?_, ?_, ?_⟩
  · intro h
    simp [cacheManagerGet, Nat.not_lt.mpr h]
  · intro h1 h2
    refine ⟨?_, ?_, rfl, rfl⟩
    · simp [cacheManagerGet, h1, hswr, h2]
    · exact getHeader_setHeader_self (str "X-Cache-Status") (str "STALE") _
  · intro h1 h2
    have hn : ¬ (now - e.expiresAt ≤ swr * 1000) := by omega
    simp [cacheManagerGet, h1, hswr, hn]

/-- Witness for C7: the fixture entry is stale at `t = 1500` (500 ms past
expiry, within its 2 s window) and gone at `t = 4000`. -/
theorem C7_stale_while_revalidate_witness :
    cacheManagerGet 1500 (some cacheEntryW) = .staleHit cacheEntryW ∧
    cacheManagerGet 4000 (some cacheEntryW) = .missExpired :=
  ⟨((C7_stale_while_revalidate 1500 cacheEntryW 2 rfl).2.1 (by decide) (by decide)).1,
   (C7_stale_while_revalidate 4000 cacheEntryW 2 rfl).2.2 (by decide) (by decide)⟩

/-! ## Auth orchestration claim -/

/-- C8: `runAuth` answers 500 when the profile's adapter name has no
registration (distinct from a verification failure); a failing `verify`
result is returned verbatim — an adapter-supplied 403 reaches the client as
that exact 403 — and the generic 401 is used only when the failing adapter
supplies no response (or throws). -/
theorem C8_auth_orchestration :
    (∀ (registry : List (Str × AuthAdapterM)) (authKv : AuthKvOracle)
       (pc : AuthProfileConfig) (fc : AuthFeatureConfig) (req : RequestM),
       alookup pc.adapter registry = none →
       runAuth registry authKv pc fc req =
         { success := false, upstreamHeaders := none,
           response := some adapterNotRegistered500 } ∧
       adapterNotRegistered500.status = 500)
    ∧ (∀ (registry : List (Str × AuthAdapterM)) (authKv : AuthKvOracle)
       (pc : AuthProfileConfig) (fc : AuthFeatureConfig) (req : RequestM)
       (a : AuthAdapterM) (r : AuthResultM),
       alookup pc.adapter registry = some a →
       runAuthCached a fc authKv req = none →
       a.verify req = .ok r →
       runAuth registry authKv pc fc req = r)
    ∧ (∀ (registry : List (Str × AuthAdapterM)) (authKv : AuthKvOracle)
       (pc : AuthProfileConfig) (fc : AuthFeatureConfig) (req : RequestM)
       (a : AuthAdapterM),
       alookup pc.adapter registry = some a →
       runAuthCached a fc authKv req = none →
       a.verify req = .threw →
       runAuth registry authKv pc fc req = DEFAULT_401)
    ∧ ((preDispatch envC8a cfgC8 0 stEmpty reqApi).1 = .authFailed respAdapter403
        ∧ respAdapter403.status = 403)
    ∧ ((preDispatch envC8b cfgC8 0 stEmpty reqApi).1 = .authFailed genericUnauthorized
        ∧ genericUnauthorized.status = 401) := by
  refine ⟨?_, ?_, ?_, ⟨by rfl, rfl⟩, ⟨by rfl, rfl⟩⟩
  · intro registry authKv pc fc req h
    unfold runAuth
    rw [h]
    exact ⟨rfl, rfl⟩
  · intro registry authKv pc fc req a r h1 h2 h3
    unfold runAuth
    simp only [h1, h2, h3]
  · intro registry authKv pc fc req a h1 h2 h3
    unfold runAuth
    simp only [h1, h2, h3]

/-- Witness for C8: a one-adapter registry where the profile names a missing
adapter yields the 500, and the registered `deny` adapter's 403 comes back
verbatim from `runAuth`. -/
theorem C8_auth_orchestration_witness :
    (runAuth [] (fun _ => none) ⟨str "absent"⟩ ⟨true, none, []⟩ reqApi).response
      = some adapterNotRegistered500 ∧
    runAuth [(str "deny", adapter403)] (fun _ => none) ⟨str "deny"⟩
        ⟨true, none, [(str "p", ⟨str "deny"⟩)]⟩ reqApi
      = ⟨false, none, some respAdapter403⟩ :=
  ⟨by rw [(C8_auth_orchestration.1 [] (fun _ => none) ⟨str "absent"⟩
      ⟨true, none, []⟩ reqApi rfl).1],
   C8_auth_orchestration.2.1 [(str "deny", adapter403)] (fun _ => none)
      ⟨str "deny"⟩ ⟨true, none, [(str "p", ⟨str "deny"⟩)]⟩ reqApi adapter403
      ⟨false, none, some respAdapter403⟩ rfl rfl rfl⟩

/-! ## URL rewriting claim -/

/-- C5: `joinPaths` joins a base path and a non-empty remainder with exactly
one slash for every combination of trailing slash on the base and leading
slash on the remainder, and the pipeline carries the query through: the
`/api → https://svc.test` route dispatches `GET /api/a?x=1` to
`https://svc.test/a?x=1`. -/
theorem C5_url_rewrite (b r : Str) (hb : b.getLast? ≠ some '/')
    (hr : r.head? ≠ some '/') (hrne : r ≠ []) :
    (joinPaths b r = b ++ '/' :: r
      ∧ joinPaths (b ++ ['/']) r = b ++ '/' :: r
      ∧ joinPaths b ('/' :: r) = b ++ '/' :: r
      ∧ joinPaths (b ++ ['/']) ('/' :: r) = b ++ '/' :: r)
    ∧ (preDispatch envBase cfgBase 0 stEmpty reqApi).1 =
        .dispatch (str "https://svc.test/a?x=1") reqApi := by
  have hbslash : b ≠ str "/" := by
    intro h
    rw [h] at hb
    exact hb rfl
  have hnorm : ∀ s : Str, s.head? ≠ some '/' → s ≠ [] →
      joinPaths b s = b ++ '/' :: s ∧ joinPaths (b ++ ['/']) s = b ++ '/' :: s := by
    intro s hs hsne
    constructor
    · by_cases hbe : b = []
      · subst hbe
        have h1 : ¬ ([] : Str) = str "/" := by decide
        simp [joinPaths, h1, hsne, hs]
      · simp [joinPaths, hbslash, hsne, hs, hbe, hb]
    · by_cases hbe : b = []
      · subst hbe
        have h1 : ([] : Str) ++ ['/'] = str "/" := by decide
        simp [joinPaths, h1, hsne, hs]
      · have hne : ¬ b ++ ['/'] = str "/" := by
          intro h
          have hl := congrArg List.length h
          simp [str] at hl
          exact hbe hl
        have hne2 : ¬ b ++ ['/'] = [] := by simp
        simp [joinPaths, hne, hne2, hsne, hs, List.getLast?_concat,
          List.dropLast_concat]
  have h4 : ∀ s : Str, ('/' :: s).head? ≠ some '/' → False := by
    intro s h
    exact h rfl
  have hslashr : ('/' :: r : Str) ≠ [] := by simp
  refine ⟨⟨(hnorm r hr hrne).1, (hnorm r hr hrne).2, ?_, ?_⟩, by rfl⟩
  · by_cases hbe : b = []
    · subst hbe
      have h1 : ¬ ([] : Str) = str "/" := by decide
      simp [joinPaths, h1, hslashr]
    · simp [joinPaths, hbslash, hslashr, hbe, hb]
  · by_cases hbe : b = []
    · subst hbe
      have h1 : ([] : Str) ++ ['/'] = str "/" := by decide
      simp [joinPaths, h1, hslashr]
    · have hne : ¬ b ++ ['/'] = str "/" := by
        intro h
        have hl := congrArg List.length h
        simp [str] at hl
        exact hbe hl
      have hne2 : ¬ b ++ ['/'] = [] := by simp
      simp [joinPaths, hne, hne2, hslashr, List.getLast?_concat,
        List.dropLast_concat]

/-- Witness for C5: the join of `/v1` and `a` in all four spellings. -/
theorem C5_url_rewrite_witness :
    joinPaths (str "/v1") (str "a") = str "/v1/a" ∧
    joinPaths (str "/v1/") (str "/a") = str "/v1/a" :=
  ⟨(C5_url_rewrite (str "/v1") (str "a") (by decide) (by decide) (by decide)).1.1,
   ((C5_url_rewrite (str "/v1") (str "a") (by decide) (by decide) (by decide)).1.2.2.2 : _)⟩

/-! ## Route-matching claim -/

/-- C6: route matching returns the first declared route whose prefix matches,
regardless of later matches; a prefix without a trailing slash matches only
an exact path or one whose next character is `/`; and with no match the
request is answered 404. -/
theorem C6_first_match_wins :
    (∀ (path : Str) (pre post : List Route) (r : Route),
       (∀ r' ∈ pre, isPrefixMatch path r'.pfx = false) →
       isPrefixMatch path r.pfx = true →
       findMatchingRoute path (pre ++ r :: post) =
         some ⟨r, path.drop r.pfx.length⟩)
    ∧ (∀ (path p : Str), p.getLast? ≠ some '/' →
        (isPrefixMatch path p = true ↔
          path = p ∨ ∃ rest, path = p ++ '/' :: rest))
    ∧ (∀ (path : Str) (routes : List Route),
        findMatchingRoute path routes = none ↔
          ∀ r ∈ routes, isPrefixMatch path r.pfx = false)
    ∧ ((preDispatch envBase cfgBase 0 stEmpty reqNoRoute).1 = .noRoute respNoRoute
        ∧ respNoRoute.status = 404) := by
  refine ⟨?_, ?_, ?_, by rfl, rfl⟩
  · intro path pre post r hpre hr
    induction pre with
    | nil => simp [findMatchingRoute, hr]
    | cons r' t ih =>
        have h1 : isPrefixMatch path r'.pfx = false := hpre r' (by simp)
        simp only [List.cons_append, findMatchingRoute, h1, Bool.false_eq_true,
          if_false]
        exact ih (fun r'' h'' => hpre r'' (by simp [h'']))
  · intro path p hp
    unfold isPrefixMatch
    rw [if_neg hp]
    constructor
    · intro h
      rcases Bool.or_eq_true_iff.mp h with h1 | h2
      · exact Or.inl (eq_of_beq h1)
      · rcases List.isPrefixOf_iff_prefix.mp h2 with ⟨t, ht⟩
        refine Or.inr ⟨t, ?_⟩
        rw [← ht, List.append_assoc]
        rfl
    · intro h
      rcases h with h1 | ⟨rest, h2⟩
      · subst h1
        simp
      · subst h2
        apply Bool.or_eq_true_iff.mpr
        refine Or.inr (List.isPrefixOf_iff_prefix.mpr ⟨rest, ?_⟩)
        rw [List.append_assoc]
        rfl
  · intro path routes
    induction routes with
    | nil => simp [findMatchingRoute]
    | cons r t ih =>
        by_cases h : isPrefixMatch path r.pfx = true
        · simp [findMatchingRoute, h]
        · have h' : isPrefixMatch path r.pfx = false := by
            revert h; cases isPrefixMatch path r.pfx <;> simp
          simp [findMatchingRoute, h', ih]

/-- Witness for C6: `/api/a` skips the non-matching `/other` route and picks
`routeApi`; `/apix` does not match the `/api` prefix. -/
theorem C6_first_match_wins_witness :
    findMatchingRoute (str "/api/a") [routeOther, routeApi] =
      some ⟨routeApi, (str "/api/a").drop routeApi.pfx.length⟩ ∧
    isPrefixMatch (str "/apix") (str "/api") = false :=
  ⟨C6_first_match_wins.1 (str "/api/a") [routeOther] [] routeApi
      (by intro r' h; simp at h; subst h; decide) (by decide),
   by decide⟩

/-! ## Deduplication claim (C1) -/

theorem adelete_length_le (k : Str) (l : List (Str × α)) :
    (adelete k l).length ≤ l.length :=
  List.length_filter_le _ l

theorem hasPending_length_le (now : Nat) (h : Str) (m : List (Str × DedupEntry)) :
    (hasPending now h m).2.length ≤ m.length := by
  unfold hasPending
  cases alookup h m with
  | none => exact Nat.le_refl _
  | some p =>
      dsimp only
      split
      · exact adelete_length_le h m
      · exact Nat.le_refl _

theorem pdDispatchStage_dedup (env : PipelineEnv) (config : ProxyConfig)
    (now : Nat) (route : Route) (rp : Str) (req : RequestM) (st : PipelineState) :
    (pdDispatchStage env config now route rp req st).2.dedup = st.dedup := by
  unfold pdDispatchStage
  cases resolveCircuitBreaker config route with
  | none => rfl
  | some profile =>
      dsimp only
      split <;> rfl

theorem pdDedupStage_dedup_le (env : PipelineEnv) (config : ProxyConfig)
    (now : Nat) (route : Route) (rp : Str) (req : RequestM) (st : PipelineState) :
    (pdDedupStage env config now route rp req st).2.dedup.length ≤ st.dedup.length := by
  simp only [pdDedupStage]
  repeat' split
  all_goals try rw [pdDispatchStage_dedup]
  all_goals first
    | exact Nat.le_refl _
    | exact hasPending_length_le now _ st.dedup

theorem pdCacheStage_dedup_le (env : PipelineEnv) (config : ProxyConfig)
    (now : Nat) (route : Route) (rp : Str) (req : RequestM) (st : PipelineState) :
    (pdCacheStage env config now route rp req st).2.dedup.length ≤ st.dedup.length := by
  simp only [pdCacheStage]
  split
  · exact Nat.le_refl _
  · exact pdDedupStage_dedup_le env config now route rp req st

theorem pdAuthStage_dedup_le (env : PipelineEnv) (config : ProxyConfig)
    (now : Nat) (route : Route) (rp : Str) (req : RequestM) (st : PipelineState) :
    (pdAuthStage env config now route rp req st).2.dedup.length ≤ st.dedup.length := by
  simp only [pdAuthStage]
  split
  · exact Nat.le_refl _
  · exact pdCacheStage_dedup_le env config now route rp _ st

theorem pdOriginStage_dedup_le (env : PipelineEnv) (config : ProxyConfig)
    (now : Nat) (route : Route) (rp : Str) (req : RequestM) (st : PipelineState) :
    (pdOriginStage env config now route rp req st).2.dedup.length ≤ st.dedup.length := by
  simp only [pdOriginStage]
  split
  · exact Nat.le_refl _
  · exact pdAuthStage_dedup_le env config now route rp req st

theorem pdRouteRateLimitStage_dedup_le (env : PipelineEnv) (config : ProxyConfig)
    (now : Nat) (clientIp : Str) (rlOn : Bool) (route : Route) (rp : Str)
    (req : RequestM) (st : PipelineState) :
    (pdRouteRateLimitStage env config now clientIp rlOn route rp req st).2.dedup.length
      ≤ st.dedup.length := by
  simp only [pdRouteRateLimitStage]
  repeat' split
  all_goals first
    | exact Nat.le_refl _
    | exact pdOriginStage_dedup_le env config now route rp req _

theorem pdSizeStage_dedup_le (env : PipelineEnv) (config : ProxyConfig)
    (now : Nat) (clientIp : Str) (rlOn : Bool) (route : Route) (rp : Str)
    (req : RequestM) (st : PipelineState) :
    (pdSizeStage env config now clientIp rlOn route rp req st).2.dedup.length
      ≤ st.dedup.length := by
  simp only [pdSizeStage]
  split
  · exact Nat.le_refl _
  · exact pdRouteRateLimitStage_dedup_le env config now clientIp rlOn route rp req st

theorem preDispatch_dedup_shrinks (env : PipelineEnv) (config : ProxyConfig)
    (now : Nat) (st : PipelineState) (req : RequestM) :
    (preDispatch env config now st req).2.dedup.length ≤ st.dedup.length := by
  simp only [preDispatch]
  repeat' split
  all_goals first
    | exact Nat.le_refl _
    | exact pdSizeStage_dedup_le env config now _ _ _ _ req _

/-- C1 (evaluation of the code at the failing input): the pre-dispatch
pipeline never grows the deduplicator registry — nothing ever calls
`register` — so on a dedup-enabled route, a second GET with an identical
dedup key issued while the first is still in flight is dispatched to the
backend again (two dispatches instead of one), the registry staying empty.
The deduplicator itself works: after `register`, `hasPending` finds the
handle. -/
theorem C1_dedup_registration_missing :
    (∀ (env : PipelineEnv) (config : ProxyConfig) (now : Nat)
       (st : PipelineState) (req : RequestM),
       (preDispatch env config now st req).2.dedup.length ≤ st.dedup.length)
    ∧ ((preDispatch envBase cfgC1 0 stEmpty reqApi).1 =
        .dispatch (str "https://svc.test/a?x=1") reqApi
      ∧ (preDispatch envBase cfgC1 0 stEmpty reqApi).2.dedup = []
      ∧ (preDispatch envBase cfgC1 0
           (preDispatch envBase cfgC1 0 stEmpty reqApi).2 reqApi).1 =
        .dispatch (str "https://svc.test/a?x=1") reqApi)
    ∧ (∀ (now : Nat) (h : Str) (resp : Resp) (m : List (Str × DedupEntry)),
        (hasPending now h (dedupRegister now h resp m)).1 = true) := by
  refine ⟨preDispatch_dedup_shrinks, ⟨by rfl, by rfl, by rfl⟩, ?_⟩
  intro now h resp m
  unfold hasPending dedupRegister
  rw [alookup_aset_self]
  dsimp only
  rw [if_neg (by omega : ¬ DEDUP_DEFAULT_WINDOW_MS < now - now)]

/-! ## Unknown-client-identity claim (C10) -/

theorem pdDispatchStage_noRL (env : PipelineEnv) (config : ProxyConfig)
    (now : Nat) (route : Route) (rp : Str) (req : RequestM) (st : PipelineState) :
    isRateLimitedOutcome (pdDispatchStage env config now route rp req st).1 = false := by
  simp only [pdDispatchStage]
  repeat' split
  all_goals rfl

theorem pdDedupStage_noRL (env : PipelineEnv) (config : ProxyConfig)
    (now : Nat) (route : Route) (rp : Str) (req : RequestM) (st : PipelineState) :
    isRateLimitedOutcome (pdDedupStage env config now route rp req st).1 = false := by
  simp only [pdDedupStage]
  repeat' split
  all_goals first
    | rfl
    | apply pdDispatchStage_noRL

theorem pdCacheStage_noRL (env : PipelineEnv) (config : ProxyConfig)
    (now : Nat) (route : Route) (rp : Str) (req : RequestM) (st : PipelineState) :
    isRateLimitedOutcome (pdCacheStage env config now route rp req st).1 = false := by
  simp only [pdCacheStage]
  split
  · rfl
  · apply pdDedupStage_noRL

theorem pdAuthStage_noRL (env : PipelineEnv) (config : ProxyConfig)
    (now : Nat) (route : Route) (rp : Str) (req : RequestM) (st : PipelineState) :
    isRateLimitedOutcome (pdAuthStage env config now route rp req st).1 = false := by
  simp only [pdAuthStage]
  split
  · rfl
  · apply pdCacheStage_noRL

theorem pdOriginStage_noRL (env : PipelineEnv) (config : ProxyConfig)
    (now : Nat) (route : Route) (rp : Str) (req : RequestM) (st : PipelineState) :
    isRateLimitedOutcome (pdOriginStage env config now route rp req st).1 = false := by
  simp only [pdOriginStage]
  split
  · rfl
  · apply pdAuthStage_noRL

theorem pdRouteRateLimitStage_noRL (env : PipelineEnv) (config : ProxyConfig)
    (now : Nat) (clientIp : Str) (route : Route) (rp : Str) (req : RequestM)
    (st : PipelineState) :
    isRateLimitedOutcome
      (pdRouteRateLimitStage env config now clientIp false route rp req st).1 = false :=
  pdOriginStage_noRL env config now route rp req st

theorem pdSizeStage_noRL (env : PipelineEnv) (config : ProxyConfig)
    (now : Nat) (clientIp : Str) (route : Route) (rp : Str) (req : RequestM)
    (st : PipelineState) :
    isRateLimitedOutcome
      (pdSizeStage env config now clientIp false route rp req st).1 = false := by
  simp only [pdSizeStage]
  split
  · rfl
  · apply pdRouteRateLimitStage_noRL

theorem pdDispatchStage_rl (env : PipelineEnv) (config : ProxyConfig)
    (now : Nat) (route : Route) (rp : Str) (req : RequestM) (st : PipelineState) :
    (pdDispatchStage env config now route rp req st).2.rl = st.rl := by
  simp only [pdDispatchStage]
  repeat' split
  all_goals rfl

theorem pdDedupStage_rl (env : PipelineEnv) (config : ProxyConfig)
    (now : Nat) (route : Route) (rp : Str) (req : RequestM) (st : PipelineState) :
    (pdDedupStage env config now route rp req st).2.rl = st.rl := by
  simp only [pdDedupStage]
  repeat' split
  all_goals try rw [pdDispatchStage_rl]
  all_goals rfl

theorem pdCacheStage_rl (env : PipelineEnv) (config : ProxyConfig)
    (now : Nat) (route : Route) (rp : Str) (req : RequestM) (st : PipelineState) :
    (pdCacheStage env config now route rp req st).2.rl = st.rl := by
  simp only [pdCacheStage]
  split
  · rfl
  · exact pdDedupStage_rl env config now route rp req st

theorem pdAuthStage_rl (env : PipelineEnv) (config : ProxyConfig)
    (now : Nat) (route : Route) (rp : Str) (req : RequestM) (st : PipelineState) :
    (pdAuthStage env config now route rp req st).2.rl = st.rl := by
  simp only [pdAuthStage]
  split
  · rfl
  · exact pdCacheStage_rl env config now route rp _ st

theorem pdOriginStage_rl (env : PipelineEnv) (config : ProxyConfig)
    (now : Nat) (route : Route) (rp : Str) (req : RequestM) (st : PipelineState) :
    (pdOriginStage env config now route rp req st).2.rl = st.rl := by
  simp only [pdOriginStage]
  split
  · rfl
  · exact pdAuthStage_rl env config now route rp req st

theorem pdRouteRateLimitStage_rl_false (env : PipelineEnv) (config : ProxyConfig)
    (now : Nat) (clientIp : Str) (route : Route) (rp : Str) (req : RequestM)
    (st : PipelineState) :
    (pdRouteRateLimitStage env config now clientIp false route rp req st).2.rl
      = st.rl :=
  pdOriginStage_rl env config now route rp req st

theorem pdSizeStage_rl_false (env : PipelineEnv) (config : ProxyConfig)
    (now : Nat) (clientIp : Str) (route : Route) (rp : Str) (req : RequestM)
    (st : PipelineState) :
    (pdSizeStage env config now clientIp false route rp req st).2.rl = st.rl := by
  simp only [pdSizeStage]
  split
  · rfl
  · exact pdRouteRateLimitStage_rl_false env config now clientIp route rp req st

/-- C10: a request with no `CF-Connecting-IP` header resolves to the
`'unknown'` client identity, both rate-limit checks are skipped entirely (the
rate-limit store is untouched), and the pipeline never answers with a
rate-limit rejection, whatever limits are configured. -/
theorem C10_unknown_ip_skips_rate_limit (env : PipelineEnv) (config : ProxyConfig)
    (now : Nat) (st : PipelineState) (req : RequestM)
    (h : getHeader req.headers (str "CF-Connecting-IP") = none) :
    clientIpOf req = str "unknown" ∧
    isRateLimitedOutcome (preDispatch env config now st req).1 = false ∧
    (preDispatch env config now st req).2.rl = st.rl := by
  have hip : clientIpOf req = str "unknown" := by
    simp [clientIpOf, h]
  have hrl : (((config.rateLimit.map RateLimitSettings.enabled).getD false) &&
      clientIpOf req != str "unknown") = false := by
    rw [hip]
    simp
  refine ⟨hip, ?_, ?_⟩
  · simp only [preDispatch, hrl, Bool.false_eq_true, if_false]
    split
    · rfl
    · split
      · rfl
      · split
        · rfl
        · apply pdSizeStage_noRL
  · simp only [preDispatch, hrl, Bool.false_eq_true, if_false]
    split
    · rfl
    · split
      · rfl
      · split
        · rfl
        · apply pdSizeStage_rl_false

/-- Witness for C10: a request without the header, against a config whose
rate limit is `1/window`, is still not rate-limited. -/
theorem C10_unknown_ip_skips_rate_limit_witness :
    clientIpOf reqApi = str "unknown" ∧
    isRateLimitedOutcome (preDispatch envBase cfgC4 0 stEmpty reqApi).1 = false ∧
    (preDispatch envBase cfgC4 0 stEmpty reqApi).2.rl = stEmpty.rl :=
  C10_unknown_ip_skips_rate_limit envBase cfgC4 0 stEmpty reqApi rfl

/-! ## Fixed-window sequence lemmas (claim C4) -/

theorem window_div_bounds (ws now : Nat) (hws : 0 < ws) :
    getCurrentWindow ws now ≤ now / 1000 ∧
    now / 1000 < getCurrentWindow ws now + ws := by
  unfold getCurrentWindow
  constructor
  · exact Nat.div_mul_le_self _ _
  · have h1 := Nat.div_add_mod (now / 1000) ws
    have h2 := Nat.mod_lt (now / 1000) hws
    have h3 : ws * (now / 1000 / ws) = now / 1000 / ws * ws := Nat.mul_comm _ _
    omega

theorem cleanupOldEntries_entries (ws now : Nat) (st : RLStore)
    (hsize : st.entries.length < RL_MAX_ENTRIES) :
    (cleanupOldEntries ws now st).entries = st.entries ∨
    (cleanupOldEntries ws now st).entries =
      st.entries.filter (fun p => ¬ p.2.windowStart < getCurrentWindow ws now) := by
  unfold cleanupOldEntries
  by_cases hfast : now - st.lastCleanup < RL_CLEANUP_INTERVAL
  · left
    rw [if_pos hfast, if_neg (by omega : ¬ RL_MAX_ENTRIES ≤ st.entries.length)]
  · right
    rw [if_neg hfast]
    show (if RL_MAX_ENTRIES ≤
        (st.entries.filter (fun p => ¬ p.2.windowStart < getCurrentWindow ws now)).length
      then performEmergencyCleanup
        (st.entries.filter (fun p => ¬ p.2.windowStart < getCurrentWindow ws now))
      else st.entries.filter (fun p => ¬ p.2.windowStart < getCurrentWindow ws now)) =
        st.entries.filter (fun p => ¬ p.2.windowStart < getCurrentWindow ws now)
    have hle := List.length_filter_le
      (fun p : Str × RateLimitWindow => ¬ p.2.windowStart < getCurrentWindow ws now)
      st.entries
    rw [if_neg (by omega)]

theorem cleanup_length_le (ws now : Nat) (st : RLStore)
    (hsize : st.entries.length < RL_MAX_ENTRIES) :
    (cleanupOldEntries ws now st).entries.length ≤ st.entries.length := by
  rcases cleanupOldEntries_entries ws now st hsize with h | h <;> rw [h]
  exact List.length_filter_le _ _

theorem cleanup_keyUnique (ws now : Nat) (st : RLStore) (k : Str)
    (hsize : st.entries.length < RL_MAX_ENTRIES)
    (hu : keyUnique k st.entries) :
    keyUnique k (cleanupOldEntries ws now st).entries := by
  rcases cleanupOldEntries_entries ws now st hsize with h | h <;> rw [h]
  · exact hu
  · exact keyUnique_filter _ _ _ hu

theorem cleanup_lookup_some (ws now : Nat) (st : RLStore) (k : Str)
    (v : RateLimitWindow)
    (hsize : st.entries.length < RL_MAX_ENTRIES)
    (hu : keyUnique k st.entries)
    (hl : alookup k st.entries = some v)
    (hv : ¬ v.windowStart < getCurrentWindow ws now) :
    alookup k (cleanupOldEntries ws now st).entries = some v := by
  rcases cleanupOldEntries_entries ws now st hsize with h | h <;> rw [h]
  · exact hl
  · rw [alookup_filter_keyUnique k _ _ hu, hl]
    simp [hv]

theorem cleanup_lookup_stale (ws now : Nat) (st : RLStore) (k : Str)
    (hsize : st.entries.length < RL_MAX_ENTRIES)
    (hu : keyUnique k st.entries)
    (hst : ∀ e, alookup k st.entries = some e →
      e.windowStart < getCurrentWindow ws now) :
    ∀ e, alookup k (cleanupOldEntries ws now st).entries = some e →
      e.windowStart < getCurrentWindow ws now := by
  intro e he
  rcases cleanupOldEntries_entries ws now st hsize with h | h <;> rw [h] at he
  · exact hst e he
  · rw [alookup_filter_keyUnique k _ _ hu] at he
    cases hl : alookup k st.entries with
    | none => rw [hl] at he; exact absurd he (by simp)
    | some v =>
        rw [hl] at he
        dsimp only at he
        split at he
        · obtain rfl := Option.some.inj he
          exact hst _ hl
        · exact absurd he (by simp)

theorem find?_isSome_of_alookup_some {α : Type u} (k : Str) (l : List (Str × α))
    (v : α) (h : alookup k l = some v) :
    (l.find? (fun p => p.1 == k)).isSome := by
  unfold alookup at h
  cases hf : l.find? (fun p => p.1 == k) with
  | none => rw [hf] at h; exact absurd h (by simp)
  | some x => rfl

theorem checkRateLimit_step (ip : Str) (rl : RateLimitSettings)
    (route? : Option Route) (now c : Nat) (st : RLStore)
    (hen : rl.enabled = true) (hws : 0 < rl.windowSeconds)
    (hu : keyUnique (getRateLimitKey ip (route?.map Route.pfx)) st.entries)
    (hl : alookup (getRateLimitKey ip (route?.map Route.pfx)) st.entries =
      some ⟨c, getCurrentWindow rl.windowSeconds now⟩)
    (hsize : st.entries.length < RL_MAX_ENTRIES) :
    (if effectiveFixedLimit rl.requestsPerWindow route? ≤ (c : Int) then
      (checkRateLimit ip (some rl) route? now st).1 =
        { allowed := false,
          retryAfter := some ((getCurrentWindow rl.windowSeconds now +
            rl.windowSeconds) - now / 1000),
          limit := some (effectiveFixedLimit rl.requestsPerWindow route?),
          current := some c }
      ∧ alookup (getRateLimitKey ip (route?.map Route.pfx))
          (checkRateLimit ip (some rl) route? now st).2.entries =
        some ⟨c, getCurrentWindow rl.windowSeconds now⟩
    else
      (checkRateLimit ip (some rl) route? now st).1 =
        { allowed := true, retryAfter := none,
          limit := some (effectiveFixedLimit rl.requestsPerWindow route?),
          current := some (c + 1) }
      ∧ alookup (getRateLimitKey ip (route?.map Route.pfx))
          (checkRateLimit ip (some rl) route? now st).2.entries =
        some ⟨c + 1, getCurrentWindow rl.windowSeconds now⟩)
    ∧ keyUnique (getRateLimitKey ip (route?.map Route.pfx))
        (checkRateLimit ip (some rl) route? now st).2.entries
    ∧ (checkRateLimit ip (some rl) route? now st).2.entries.length
        ≤ st.entries.length
    ∧ 1 ≤ (getCurrentWindow rl.windowSeconds now + rl.windowSeconds) - now / 1000 := by
  have hW := window_div_bounds rl.windowSeconds now hws
  have hretry : 1 ≤ (getCurrentWindow rl.windowSeconds now + rl.windowSeconds)
      - now / 1000 := by omega
  have hcl := cleanup_lookup_some rl.windowSeconds now st _ _ hsize hu hl
    (by exact Nat.lt_irrefl _)
  have hcu := cleanup_keyUnique rl.windowSeconds now st _ hsize hu
  have hclen := cleanup_length_le rl.windowSeconds now st hsize
  have hfind := find?_isSome_of_alookup_some _ _ _ hcl
  have hmax : max ((getCurrentWindow rl.windowSeconds now + rl.windowSeconds)
      - now / 1000) 1 = (getCurrentWindow rl.windowSeconds now +
      rl.windowSeconds) - now / 1000 := Nat.max_eq_left hretry
  have hck : checkRateLimit ip (some rl) route? now st =
      (let st1 := cleanupOldEntries rl.windowSeconds now st
       let L := effectiveFixedLimit rl.requestsPerWindow route?
       let key := getRateLimitKey ip (route?.map Route.pfx)
       if L ≤ (c : Int) then
        ({ allowed := false,
           retryAfter := some (max ((getCurrentWindow rl.windowSeconds now +
             rl.windowSeconds) - now / 1000) 1),
           limit := some L, current := some c }, st1)
       else
        ({ allowed := true, retryAfter := none, limit := some L,
           current := some (c + 1) },
         { st1 with entries := aset key (RateLimitWindow.mk (c + 1)
             (getCurrentWindow rl.windowSeconds now)) st1.entries })) := by
    simp only [checkRateLimit, hen, Bool.true_eq_false, if_false, hcl,
      lt_self_iff_false, reduceIte]
  rw [hck]
  simp only []
  by_cases hL : effectiveFixedLimit rl.requestsPerWindow route? ≤ (c : Int)
  · rw [if_pos hL, if_pos hL]
    exact ⟨⟨by rw [hmax], hcl⟩, hcu, hclen, hretry⟩
  · rw [if_neg hL, if_neg hL]
    refine ⟨⟨rfl, ?_⟩, ?_, ?_, hretry⟩
    · exact alookup_aset_self _ _ _
    · exact keyUnique_aset _ _ _ hcu
    · rw [aset_length_of_present _ _ _ hfind]
      exact hclen

theorem checkRateLimit_first (ip : Str) (rl : RateLimitSettings)
    (route? : Option Route) (now : Nat) (st : RLStore)
    (hen : rl.enabled = true) (hws : 0 < rl.windowSeconds)
    (hu : keyUnique (getRateLimitKey ip (route?.map Route.pfx)) st.entries)
    (hst : ∀ e, alookup (getRateLimitKey ip (route?.map Route.pfx)) st.entries =
      some e → e.windowStart < getCurrentWindow rl.windowSeconds now)
    (hsize : st.entries.length < RL_MAX_ENTRIES) :
    (if effectiveFixedLimit rl.requestsPerWindow route? ≤ (0 : Int) then
      (checkRateLimit ip (some rl) route? now st).1 =
        { allowed := false,
          retryAfter := some ((getCurrentWindow rl.windowSeconds now +
            rl.windowSeconds) - now / 1000),
          limit := some (effectiveFixedLimit rl.requestsPerWindow route?),
          current := some 0 }
      ∧ alookup (getRateLimitKey ip (route?.map Route.pfx))
          (checkRateLimit ip (some rl) route? now st).2.entries =
        some ⟨0, getCurrentWindow rl.windowSeconds now⟩
    else
      (checkRateLimit ip (some rl) route? now st).1 =
        { allowed := true, retryAfter := none,
          limit := some (effectiveFixedLimit rl.requestsPerWindow route?),
          current := some 1 }
      ∧ alookup (getRateLimitKey ip (route?.map Route.pfx))
          (checkRateLimit ip (some rl) route? now st).2.entries =
        some ⟨1, getCurrentWindow rl.windowSeconds now⟩)
    ∧ keyUnique (getRateLimitKey ip (route?.map Route.pfx))
        (checkRateLimit ip (some rl) route? now st).2.entries
    ∧ (checkRateLimit ip (some rl) route? now st).2.entries.length
        ≤ st.entries.length + 1
    ∧ 1 ≤ (getCurrentWindow rl.windowSeconds now + rl.windowSeconds) - now / 1000 := by
  have hW := window_div_bounds rl.windowSeconds now hws
  have hretry : 1 ≤ (getCurrentWindow rl.windowSeconds now + rl.windowSeconds)
      - now / 1000 := by omega
  have hcu := cleanup_keyUnique rl.windowSeconds now st
    (getRateLimitKey ip (route?.map Route.pfx)) hsize hu
  have hclen := cleanup_length_le rl.windowSeconds now st hsize
  have hclst := cleanup_lookup_stale rl.windowSeconds now st _ hsize hu hst
  have hmax : max ((getCurrentWindow rl.windowSeconds now + rl.windowSeconds)
      - now / 1000) 1 = (getCurrentWindow rl.windowSeconds now +
      rl.windowSeconds) - now / 1000 := Nat.max_eq_left hretry
  have hck : checkRateLimit ip (some rl) route? now st =
      (let st1 := cleanupOldEntries rl.windowSeconds now st
       let L := effectiveFixedLimit rl.requestsPerWindow route?
       let key := getRateLimitKey ip (route?.map Route.pfx)
       let st2 : RLStore := { st1 with entries := aset key (RateLimitWindow.mk 0
         (getCurrentWindow rl.windowSeconds now)) st1.entries }
       if L ≤ ((0 : Nat) : Int) then
        ({ allowed := false,
           retryAfter := some (max ((getCurrentWindow rl.windowSeconds now +
             rl.windowSeconds) - now / 1000) 1),
           limit := some L, current := some 0 }, st2)
       else
        ({ allowed := true, retryAfter := none, limit := some L,
           current := some 1 },
         { st2 with entries := aset key (RateLimitWindow.mk 1
             (getCurrentWindow rl.windowSeconds now)) st2.entries })) := by
    cases hlook : alookup (getRateLimitKey ip (route?.map Route.pfx))
        (cleanupOldEntries rl.windowSeconds now st).entries with
    | none =>
        simp only [checkRateLimit, hen, Bool.true_eq_false, if_false, hlook]
    | some e =>
        have hestale := hclst e hlook
        simp only [checkRateLimit, hen, Bool.true_eq_false, if_false, hlook,
          if_pos hestale]
  rw [hck]
  simp only []
  have hset0 : alookup (getRateLimitKey ip (route?.map Route.pfx))
      (aset (getRateLimitKey ip (route?.map Route.pfx))
        (RateLimitWindow.mk 0 (getCurrentWindow rl.windowSeconds now))
        (cleanupOldEntries rl.windowSeconds now st).entries) =
      some (RateLimitWindow.mk 0 (getCurrentWindow rl.windowSeconds now)) :=
    alookup_aset_self _ _ _
  have hset0u := keyUnique_aset (getRateLimitKey ip (route?.map Route.pfx))
    (RateLimitWindow.mk 0 (getCurrentWindow rl.windowSeconds now)) _ hcu
  have hset0len := aset_length_le (getRateLimitKey ip (route?.map Route.pfx))
    (RateLimitWindow.mk 0 (getCurrentWindow rl.windowSeconds now))
    (cleanupOldEntries rl.windowSeconds now st).entries
  by_cases hL : effectiveFixedLimit rl.requestsPerWindow route? ≤ ((0 : Nat) : Int)
  · rw [if_pos hL, if_pos (by exact_mod_cast hL)]
    exact ⟨⟨by rw [hmax], hset0⟩, hset0u,
      le_trans hset0len (Nat.add_le_add_right hclen 1), hretry⟩
  · rw [if_neg hL, if_neg (by exact_mod_cast hL)]
    refine ⟨⟨rfl, ?_⟩, ?_, ?_, hretry⟩
    · exact alookup_aset_self _ _ _
    · exact keyUnique_aset _ _ _ hset0u
    · have h1 := aset_length_of_present (getRateLimitKey ip (route?.map Route.pfx))
        (RateLimitWindow.mk 1 (getCurrentWindow rl.windowSeconds now)) _
        (find?_isSome_of_alookup_some _ _ _ hset0)
      exact le_trans (le_of_eq h1)
        (le_trans hset0len (Nat.add_le_add_right hclen 1))

theorem runRL_from_count (ip : Str) (rl : RateLimitSettings) (route? : Option Route)
    (ts : List Nat) (W : Nat)
    (hen : rl.enabled = true) (hws : 0 < rl.windowSeconds)
    (hall : ∀ t ∈ ts, getCurrentWindow rl.windowSeconds t = W) :
    ∀ (st : RLStore) (c : Nat),
    keyUnique (getRateLimitKey ip (route?.map Route.pfx)) st.entries →
    alookup (getRateLimitKey ip (route?.map Route.pfx)) st.entries =
      some ⟨c, W⟩ →
    st.entries.length < RL_MAX_ENTRIES →
    (runRLChecks ip (some rl) route? ts st).1 =
      expectedRLResults (effectiveFixedLimit rl.requestsPerWindow route?) W
        rl.windowSeconds c ts := by
  induction ts with
  | nil => intro st c _ _ _; rfl
  | cons t ts ih =>
      intro st c hu hl hsize
      have hWt : getCurrentWindow rl.windowSeconds t = W :=
        hall t (List.mem_cons_self _ _)
      have hall' : ∀ u ∈ ts, getCurrentWindow rl.windowSeconds u = W :=
        fun u hm => hall u (List.mem_cons_of_mem _ hm)
      have hl' : alookup (getRateLimitKey ip (route?.map Route.pfx)) st.entries =
          some ⟨c, getCurrentWindow rl.windowSeconds t⟩ := by rw [hWt]; exact hl
      obtain ⟨hbr, hu2, hlen2, hr1⟩ :=
        checkRateLimit_step ip rl route? t c st hen hws hu hl' hsize
      have hsize2 : (checkRateLimit ip (some rl) route? t st).2.entries.length <
          RL_MAX_ENTRIES := lt_of_le_of_lt hlen2 hsize
      simp only [runRLChecks, expectedRLResults]
      by_cases hL : effectiveFixedLimit rl.requestsPerWindow route? ≤ (c : Int)
      · rw [if_pos hL] at hbr
        rw [if_pos hL]
        obtain ⟨h1, h2⟩ := hbr
        rw [hWt] at h1 h2
        rw [h1, ih hall' _ c hu2 h2 hsize2]
      · rw [if_neg hL] at hbr
        rw [if_neg hL]
        obtain ⟨h1, h2⟩ := hbr
        rw [hWt] at h2
        rw [h1, ih hall' _ (c + 1) hu2 h2 hsize2]

theorem runRL_fresh (ip : Str) (rl : RateLimitSettings) (route? : Option Route)
    (t : Nat) (ts : List Nat) (W : Nat) (st : RLStore)
    (hen : rl.enabled = true) (hws : 0 < rl.windowSeconds)
    (hWt : getCurrentWindow rl.windowSeconds t = W)
    (hall : ∀ u ∈ ts, getCurrentWindow rl.windowSeconds u = W)
    (hu : keyUnique (getRateLimitKey ip (route?.map Route.pfx)) st.entries)
    (hst : ∀ e, alookup (getRateLimitKey ip (route?.map Route.pfx)) st.entries =
      some e → e.windowStart < W)
    (hsize : st.entries.length + 1 < RL_MAX_ENTRIES) :
    (runRLChecks ip (some rl) route? (t :: ts) st).1 =
      expectedRLResults (effectiveFixedLimit rl.requestsPerWindow route?) W
        rl.windowSeconds 0 (t :: ts) := by
  have hst' : ∀ e, alookup (getRateLimitKey ip (route?.map Route.pfx)) st.entries =
      some e → e.windowStart < getCurrentWindow rl.windowSeconds t := by
    rw [hWt]; exact hst
  obtain ⟨hbr, hu2, hlen2, hr1⟩ :=
    checkRateLimit_first ip rl route? t st hen hws hu hst' (by omega)
  have hsize2 : (checkRateLimit ip (some rl) route? t st).2.entries.length <
      RL_MAX_ENTRIES := by omega
  simp only [runRLChecks, expectedRLResults, Nat.cast_zero, Nat.zero_add]
  by_cases hL : effectiveFixedLimit rl.requestsPerWindow route? ≤ (0 : Int)
  · rw [if_pos hL] at hbr
    rw [if_pos hL]
    obtain ⟨h1, h2⟩ := hbr
    rw [hWt] at h1 h2
    rw [h1, runRL_from_count ip rl route? ts W hen hws hall _ 0 hu2 h2 hsize2]
  · rw [if_neg hL] at hbr
    rw [if_neg hL]
    obtain ⟨h1, h2⟩ := hbr
    rw [hWt] at h2
    rw [h1, runRL_from_count ip rl route? ts W hen hws hall _ 1 hu2 h2 hsize2]

theorem expectedRLResults_elem (L : Int) (W ws : Nat) (ts : List Nat) :
    ∀ (c i : Nat) (t : Nat), ((c : Int) ≤ L ∨ c = 0) → ts.get? i = some t →
    (expectedRLResults L W ws c ts).get? i =
      some (if ((c : Int) + i < L) then
        { allowed := true, retryAfter := none, limit := some L,
          current := some (c + i + 1) }
      else
        { allowed := false, retryAfter := some ((W + ws) - t / 1000),
          limit := some L, current := some L.toNat }) := by
  induction ts with
  | nil => intro c i t _ ht; simp at ht
  | cons t' ts ih =>
      intro c i t hc ht
      cases i with
      | zero =>
          obtain rfl : t' = t := by simpa using ht
          simp only [expectedRLResults]
          by_cases hL : L ≤ (c : Int)
          · have hcL : (c : Int) = L ∨ L ≤ 0 := by
              rcases hc with hc | hc
              · exact Or.inl (le_antisymm hc hL)
              · subst hc; right; exact_mod_cast hL
            have hcur : c = L.toNat := by
              rcases hcL with h | h
              · omega
              · rcases hc with hc | hc
                · omega
                · omega
            rw [if_pos hL]
            rw [if_neg (by omega)]
            simp [hcur]
          · rw [if_neg hL]
            rw [if_pos (by omega)]
            simp
      | succ j =>
          have ht' : ts.get? j = some t := by simpa using ht
          simp only [expectedRLResults]
          by_cases hL : L ≤ (c : Int)
          · rw [if_pos hL]
            have hc0 : c = 0 ∨ (c : Int) = L := by
              rcases hc with hc | hc
              · right; exact le_antisymm hc hL
              · left; exact hc
            have hrec := ih c j t hc ht'
            simp only [List.get?_cons_succ]
            rw [hrec]
            have : ¬ ((c : Int) + j < L) := by omega
            have h2 : ¬ ((c : Int) + (j + 1) < L) := by omega
            rw [if_neg this, if_neg (by push_cast; omega)]
          · rw [if_neg hL]
            have hrec := ih (c + 1) j t (Or.inl (by omega)) ht'
            simp only [List.get?_cons_succ]
            rw [hrec]
            by_cases h3 : ((c : Int) + (j + 1) < L)
            · rw [if_pos (by push_cast; omega),
                if_pos (by push_cast; omega)]
              have : c + 1 + j + 1 = c + (j + 1) + 1 := by omega
              rw [this]
            · rw [if_neg (by push_cast; omega),
                if_neg (by push_cast; omega)]

theorem checkRateLimit_limitCongr (ip : Str) (rl1 rl2 : RateLimitSettings)
    (r1 r2 : Option Route) (now : Nat) (st : RLStore)
    (hen : rl1.enabled = rl2.enabled)
    (hws : rl1.windowSeconds = rl2.windowSeconds)
    (hL : effectiveFixedLimit rl1.requestsPerWindow r1 =
      effectiveFixedLimit rl2.requestsPerWindow r2)
    (hp : r1.map (fun r => r.pfx) = r2.map (fun r => r.pfx)) :
    checkRateLimit ip (some rl1) r1 now st =
      checkRateLimit ip (some rl2) r2 now st := by
  simp only [checkRateLimit]
  rw [hen, hws, hL, hp]

/-- C4: with fixed-window rate limiting enabled, the effective limit is
`floor(requestsPerWindow * m)` for a truthy route multiplier `m` (the base
`requestsPerWindow` when no multiplier is set); within one window each client
identity's first effective-limit checks are allowed and every later check is
rejected with `retryAfter` equal to the seconds remaining to the next window
boundary, which is at least 1.  In the claim's scenario (`requestsPerWindow=5`,
`windowSeconds=60`, multiplier `0.2`) the effective limit is 1, the first
request dispatches and the second is answered 429 with `Retry-After: 60`. -/
theorem C4_fixed_window_multiplier :
    (∀ (rpw : Nat) (r : Route) (m : ℚ), (r.rateLimitMultiplier = some m ∧ m ≠ 0 →
        effectiveFixedLimit rpw (some r) = ⌊(rpw : ℚ) * m⌋) ∧
      (r.rateLimitMultiplier = none → effectiveFixedLimit rpw (some r) = rpw))
    ∧ (∀ (ip : Str) (rl : RateLimitSettings) (route? : Option Route)
        (t : Nat) (ts : List Nat) (W : Nat) (st : RLStore),
        rl.enabled = true → 0 < rl.windowSeconds →
        getCurrentWindow rl.windowSeconds t = W →
        (∀ u ∈ ts, getCurrentWindow rl.windowSeconds u = W) →
        keyUnique (getRateLimitKey ip (route?.map Route.pfx)) st.entries →
        (∀ e, alookup (getRateLimitKey ip (route?.map Route.pfx)) st.entries =
          some e → e.windowStart < W) →
        st.entries.length + 1 < RL_MAX_ENTRIES →
        ∀ (i u : Nat), (t :: ts).get? i = some u →
          (runRLChecks ip (some rl) route? (t :: ts) st).1.get? i =
            some (if ((i : Int) < effectiveFixedLimit rl.requestsPerWindow route?) then
              { allowed := true, retryAfter := none,
                limit := some (effectiveFixedLimit rl.requestsPerWindow route?),
                current := some (i + 1) }
            else
              { allowed := false,
                retryAfter := some ((W + rl.windowSeconds) - u / 1000),
                limit := some (effectiveFixedLimit rl.requestsPerWindow route?),
                current := some (effectiveFixedLimit rl.requestsPerWindow route?).toNat })
          ∧ 1 ≤ (W + rl.windowSeconds) - u / 1000)
    ∧ effectiveFixedLimit 5 (some routeC4) = 1
    ∧ (preDispatch envBase cfgC4 0 stEmpty reqC4).1 =
        .dispatch (str "https://svc.test/a?x=1") reqC4
    ∧ (preDispatch envBase cfgC4 0
        (preDispatch envBase cfgC4 0 stEmpty reqC4).2 reqC4).1 =
        .rateLimitedRoute (resp429 60)
    ∧ (resp429 60).status = 429
    ∧ getHeader (resp429 60).headers (str "Retry-After") = some (str "60") := by
  have heff : effectiveFixedLimit 5 (some routeC4) = 1 := by
    norm_num [effectiveFixedLimit, routeC4, routeApi]
  have hswap : ∀ st : RLStore,
      checkRateLimit (clientIpOf reqC4) cfgC4.rateLimit (some routeC4) 0 st =
      checkRateLimit (clientIpOf reqC4) (some ⟨true, 1, 60⟩) (some routeApi) 0 st := by
    intro st
    rw [show cfgC4.rateLimit = some (⟨true, 5, 60⟩ : RateLimitSettings) from rfl]
    exact checkRateLimit_limitCongr _ _ _ _ _ _ _ rfl rfl
      (by rw [show (⟨true, 5, 60⟩ : RateLimitSettings).requestsPerWindow = 5 from rfl,
            heff]; decide) rfl
  have hpre1 : checkRateLimit (clientIpOf reqC4) cfgC4.rateLimit none 0 stEmpty.rl =
      ({ allowed := true, retryAfter := none, limit := some 5, current := some 1 },
       ⟨[(str "1.2.3.4", ⟨1, 0⟩)], 0⟩) := by decide
  have hroute1 : checkRateLimit (clientIpOf reqC4) cfgC4.rateLimit (some routeC4) 0
      (⟨[(str "1.2.3.4", ⟨1, 0⟩)], 0⟩ : RLStore) =
      ({ allowed := true, retryAfter := none, limit := some 1, current := some 1 },
       ⟨[(str "1.2.3.4", ⟨1, 0⟩), (str "1.2.3.4:/api", ⟨1, 0⟩)], 0⟩) := by
    rw [hswap]; decide
  have hpre2 : checkRateLimit (clientIpOf reqC4) cfgC4.rateLimit none 0
      (⟨[(str "1.2.3.4", ⟨1, 0⟩), (str "1.2.3.4:/api", ⟨1, 0⟩)], 0⟩ : RLStore) =
      ({ allowed := true, retryAfter := none, limit := some 5, current := some 2 },
       ⟨[(str "1.2.3.4", ⟨2, 0⟩), (str "1.2.3.4:/api", ⟨1, 0⟩)], 0⟩) := by decide
  have hroute2 : checkRateLimit (clientIpOf reqC4) cfgC4.rateLimit (some routeC4) 0
      (⟨[(str "1.2.3.4", ⟨2, 0⟩), (str "1.2.3.4:/api", ⟨1, 0⟩)], 0⟩ : RLStore) =
      ({ allowed := false, retryAfter := some 60, limit := some 1, current := some 1 },
       ⟨[(str "1.2.3.4", ⟨2, 0⟩), (str "1.2.3.4:/api", ⟨1, 0⟩)], 0⟩) := by
    rw [hswap]; decide
  have hblocked : isCallerBlocked reqC4 cfgC4 = false := by decide
  have hts : (cfgC4.turnstileSecretKey.isSome &&
      !(envBase.turnstileOk ((getHeader reqC4.headers
        (str "X-Turnstile-Token")).getD []))) = false := by decide
  have hrlOn : ((cfgC4.rateLimit.map RateLimitSettings.enabled).getD false &&
      clientIpOf reqC4 != str "unknown") = true := by decide
  have hpath : reqC4.url.pathname = str "/api/a" := rfl
  have hfind : findMatchingRoute (str "/api/a") cfgC4.routes =
      some ⟨routeC4, str "/a"⟩ := rfl
  have hsl : resolveSizeLimits cfgC4 routeC4 = none := rfl
  have horig : isOriginAllowed envBase.parseOriginHostname
      (getHeader reqC4.headers (str "Origin")) cfgC4 = true := by decide
  have hauth : resolveAuth cfgC4 routeC4 = none := rfl
  have hcache : resolveCache cfgC4 routeC4 = none := rfl
  have hded : resolveDeduplication cfgC4 routeC4 = none := rfl
  have hcb : resolveCircuitBreaker cfgC4 routeC4 = none := rfl
  have htarget : routeC4.target = str "https://svc.test" := rfl
  have hparse : envBase.parseUrl (str "https://svc.test") =
      ⟨str "https://svc.test", str "/", []⟩ := rfl
  have hjoin : joinPaths (str "/") (str "/a") = str "/a" := rfl
  have hsearch : reqC4.url.search = str "?x=1" := rfl
  have hurl : urlToString ⟨str "https://svc.test", str "/a", str "?x=1"⟩ =
      str "https://svc.test/a?x=1" := rfl
  have hsd : stEmpty.dedup = [] := rfl
  have hsc : stEmpty.cb = [] := rfl
  have h1 : preDispatch envBase cfgC4 0 stEmpty reqC4 =
      (.dispatch (str "https://svc.test/a?x=1") reqC4,
       { rl := ⟨[(str "1.2.3.4", ⟨1, 0⟩), (str "1.2.3.4:/api", ⟨1, 0⟩)], 0⟩,
         dedup := [], cb := [] }) := by
    simp [preDispatch, pdSizeStage, pdRouteRateLimitStage, pdOriginStage,
      pdAuthStage, pdCacheStage, pdDedupStage, pdDispatchStage,
      hblocked, hts, hrlOn, hpre1, hpath, hfind, hsl, horig, hauth, hcache,
      hded, hcb, htarget, hparse, hjoin, hsearch, hurl, hsd, hsc, hroute1]
  have h2 : preDispatch envBase cfgC4 0
      ({ rl := ⟨[(str "1.2.3.4", ⟨1, 0⟩), (str "1.2.3.4:/api", ⟨1, 0⟩)], 0⟩,
         dedup := [], cb := [] } : PipelineState) reqC4 =
      (.rateLimitedRoute (resp429 60),
       { rl := ⟨[(str "1.2.3.4", ⟨2, 0⟩), (str "1.2.3.4:/api", ⟨1, 0⟩)], 0⟩,
         dedup := [], cb := [] }) := by
    simp [preDispatch, pdSizeStage, pdRouteRateLimitStage, pdOriginStage,
      pdAuthStage, pdCacheStage, pdDedupStage, pdDispatchStage,
      hblocked, hts, hrlOn, hpre2, hpath, hfind, hsl, horig, hauth, hcache,
      hded, hcb, htarget, hparse, hjoin, hsearch, hurl, hroute2]
  refine ⟨?_, ?_, ?_, ?_, ?_, ?_, ?_⟩
  · intro rpw r m
    constructor
    · rintro ⟨hm, hm0⟩
      simp only [effectiveFixedLimit, hm]
      rw [if_neg hm0]
    · intro hm
      simp only [effectiveFixedLimit, hm]
  · intro ip rl route? t ts W st hen hws hWt hall hu hst hsize i u hget
    have hWu : getCurrentWindow rl.windowSeconds u = W := by
      rcases List.get?_eq_some.mp hget with ⟨hi, hmem⟩
      have : u ∈ t :: ts := by
        rw [← hmem]; exact List.get_mem _ _ _
      rcases List.mem_cons.mp this with h | h
      · rw [h]; exact hWt
      · exact hall u h
    have hWb := window_div_bounds rl.windowSeconds u hws
    have hr1 : 1 ≤ (W + rl.windowSeconds) - u / 1000 := by
      rw [← hWu]; omega
    refine ⟨?_, hr1⟩
    rw [runRL_fresh ip rl route? t ts W st hen hws hWt hall hu hst hsize]
    rw [expectedRLResults_elem _ _ _ _ 0 i u (Or.inr rfl) hget]
    simp only [Nat.cast_zero, zero_add, Nat.zero_add]
  · exact heff
  · simp only [h1]
  · simp only [h1, h2]
  · rfl
  · rfl

/-- Witness: the sequence part of C4 at the scenario's numbers — limit 1 via
the `0.2` multiplier, two checks at time 0, the second rejected with
`retryAfter = 60`. -/
theorem C4_fixed_window_multiplier_witness :
    (⟨true, 5, 60⟩ : RateLimitSettings).enabled = true ∧
    (0 : Nat) < 60 ∧
    getCurrentWindow 60 0 = 0 ∧
    (∀ u ∈ [(0 : Nat)], getCurrentWindow 60 u = 0) ∧
    keyUnique (getRateLimitKey (str "1.2.3.4") ((some routeC4).map Route.pfx))
      (⟨[], 0⟩ : RLStore).entries ∧
    (∀ e, alookup (getRateLimitKey (str "1.2.3.4") ((some routeC4).map Route.pfx))
      (⟨[], 0⟩ : RLStore).entries = some e → e.windowStart < 0) ∧
    (⟨[], 0⟩ : RLStore).entries.length + 1 < RL_MAX_ENTRIES ∧
    ([0, 0] : List Nat).get? 1 = some 0 ∧
    ((runRLChecks (str "1.2.3.4") (some ⟨true, 5, 60⟩) (some routeC4)
        [0, 0] ⟨[], 0⟩).1.get? 1 =
      some (if ((1 : Nat) : Int) < effectiveFixedLimit 5 (some routeC4) then
        { allowed := true, retryAfter := none,
          limit := some (effectiveFixedLimit 5 (some routeC4)),
          current := some 2 }
      else
        { allowed := false, retryAfter := some ((0 + 60) - 0 / 1000),
          limit := some (effectiveFixedLimit 5 (some routeC4)),
          current := some (effectiveFixedLimit 5 (some routeC4)).toNat })
      ∧ 1 ≤ (0 + 60) - 0 / 1000) := by
  refine ⟨rfl, by decide, by decide, by decide, Nat.zero_le 1,
    fun e he => Option.noConfusion he, by decide, rfl, ?_⟩
  exact C4_fixed_window_multiplier.2.1 (str "1.2.3.4") ⟨true, 5, 60⟩
    (some routeC4) 0 [0] 0 ⟨[], 0⟩ rfl (by decide) (by decide) (by decide)
    (Nat.zero_le 1) (fun e he => Option.noConfusion he) (by decide) 1 0 rfl

theorem cleanupExpiredBuckets_noop (now : ℚ) (st : TBStore)
    (h : now - st.lastCleanup < TB_CLEANUP_INTERVAL) :
    cleanupExpiredBuckets now st = st := by
  unfold cleanupExpiredBuckets
  rw [if_pos h]

theorem refillTokens_self (now : ℚ) (b : TokenBucket)
    (hlr : b.lastRefill = now) (hle : b.tokens ≤ b.capacity) :
    refillTokens now b = b := by
  obtain ⟨t, lr, c, r⟩ := b
  simp only at hlr hle
  subst hlr
  simp [refillTokens, min_eq_right hle]

theorem checkTB_fresh (ip : Str) (rl : RateLimitSettings) (route? : Option Route)
    (now : ℚ) (st : TBStore)
    (hen : rl.enabled = true)
    (hclean : now - st.lastCleanup < TB_CLEANUP_INTERVAL)
    (habs : alookup (getBucketKey ip (route?.map (fun r => r.pfx))) st.buckets = none)
    (hbase : 0 < tbBaseLimit rl.requestsPerWindow route?) :
    (checkTokenBucketRateLimit ip (some rl) route? now st).1 =
      { allowed := true, limit := some (tbBaseLimit rl.requestsPerWindow route?),
        remaining := some (⌈tbBaseLimit rl.requestsPerWindow route? * (3 / 2 : ℚ)⌉ - 1),
        retryAfter := 0 }
    ∧ alookup (getBucketKey ip (route?.map (fun r => r.pfx)))
        (checkTokenBucketRateLimit ip (some rl) route? now st).2.buckets =
      some ⟨((⌈tbBaseLimit rl.requestsPerWindow route? * (3 / 2 : ℚ)⌉ : ℤ) : ℚ) - 1,
        now, ((⌈tbBaseLimit rl.requestsPerWindow route? * (3 / 2 : ℚ)⌉ : ℤ) : ℚ),
        tbBaseLimit rl.requestsPerWindow route? / (rl.windowSeconds : ℚ)⟩
    ∧ (checkTokenBucketRateLimit ip (some rl) route? now st).2.lastCleanup =
      st.lastCleanup := by
  have hcl := cleanupExpiredBuckets_noop now st hclean
  have h32 : (0 : ℚ) < tbBaseLimit rl.requestsPerWindow route? * (3 / 2 : ℚ) :=
    mul_pos hbase (by norm_num)
  have hC0 : (0 : ℤ) < ⌈tbBaseLimit rl.requestsPerWindow route? * (3 / 2 : ℚ)⌉ :=
    Int.ceil_pos.mpr h32
  have h1C : (1 : ℚ) ≤
      ((⌈tbBaseLimit rl.requestsPerWindow route? * (3 / 2 : ℚ)⌉ : ℤ) : ℚ) := by
    exact_mod_cast hC0
  have hfloor : ⌊((⌈tbBaseLimit rl.requestsPerWindow route? * (3 / 2 : ℚ)⌉ : ℤ) : ℚ)
      - 1⌋ = ⌈tbBaseLimit rl.requestsPerWindow route? * (3 / 2 : ℚ)⌉ - 1 := by
    rw [show ((⌈tbBaseLimit rl.requestsPerWindow route? * (3 / 2 : ℚ)⌉ : ℤ) : ℚ) - 1 =
      ((⌈tbBaseLimit rl.requestsPerWindow route? * (3 / 2 : ℚ)⌉ - 1 : ℤ) : ℚ) by
        push_cast; ring]
    exact Int.floor_intCast _
  have hrefill : refillTokens now
      (⟨((⌈tbBaseLimit rl.requestsPerWindow route? * (3 / 2 : ℚ)⌉ : ℤ) : ℚ), now,
        ((⌈tbBaseLimit rl.requestsPerWindow route? * (3 / 2 : ℚ)⌉ : ℤ) : ℚ),
        tbBaseLimit rl.requestsPerWindow route? / (rl.windowSeconds : ℚ)⟩ :
        TokenBucket) =
      ⟨((⌈tbBaseLimit rl.requestsPerWindow route? * (3 / 2 : ℚ)⌉ : ℤ) : ℚ), now,
       ((⌈tbBaseLimit rl.requestsPerWindow route? * (3 / 2 : ℚ)⌉ : ℤ) : ℚ),
       tbBaseLimit rl.requestsPerWindow route? / (rl.windowSeconds : ℚ)⟩ :=
    refillTokens_self _ _ rfl le_rfl
  simp only [checkTokenBucketRateLimit, hcl, hen, Bool.true_eq_false, if_false,
    getOrCreateBucket, habs, hrefill]
  rw [if_pos h1C]
  refine ⟨?_, ?_, rfl⟩
  · simp only [hfloor]
  · exact alookup_aset_self _ _ _

theorem checkTB_step (ip : Str) (rl : RateLimitSettings) (route? : Option Route)
    (now : ℚ) (st : TBStore) (b : TokenBucket)
    (hen : rl.enabled = true)
    (hclean : now - st.lastCleanup < TB_CLEANUP_INTERVAL)
    (hb : alookup (getBucketKey ip (route?.map (fun r => r.pfx))) st.buckets =
      some b) :
    (if 1 ≤ (refillTokens now b).tokens then
      (checkTokenBucketRateLimit ip (some rl) route? now st).1 =
        { allowed := true, limit := some (tbBaseLimit rl.requestsPerWindow route?),
          remaining := some ⌊(refillTokens now b).tokens - 1⌋, retryAfter := 0 }
      ∧ alookup (getBucketKey ip (route?.map (fun r => r.pfx)))
          (checkTokenBucketRateLimit ip (some rl) route? now st).2.buckets =
        some { refillTokens now b with tokens := (refillTokens now b).tokens - 1 }
    else
      (checkTokenBucketRateLimit ip (some rl) route? now st).1 =
        { allowed := false, limit := some (tbBaseLimit rl.requestsPerWindow route?),
          remaining := some 0,
          retryAfter := ⌈(1 - (refillTokens now b).tokens) /
            (tbBaseLimit rl.requestsPerWindow route? / (rl.windowSeconds : ℚ))⌉ }
      ∧ alookup (getBucketKey ip (route?.map (fun r => r.pfx)))
          (checkTokenBucketRateLimit ip (some rl) route? now st).2.buckets =
        some (refillTokens now b))
    ∧ (checkTokenBucketRateLimit ip (some rl) route? now st).2.lastCleanup =
      st.lastCleanup := by
  have hcl := cleanupExpiredBuckets_noop now st hclean
  simp only [checkTokenBucketRateLimit, hcl, hen, Bool.true_eq_false, if_false,
    getOrCreateBucket, hb]
  by_cases h1 : 1 ≤ (refillTokens now b).tokens
  · rw [if_pos h1, if_pos h1]
    exact ⟨⟨rfl, alookup_aset_self _ _ _⟩, rfl⟩
  · rw [if_neg h1, if_neg h1]
    exact ⟨⟨rfl, alookup_aset_self _ _ _⟩, rfl⟩

theorem runTB_from_tokens (ip : Str) (rl : RateLimitSettings) (route? : Option Route)
    (now : ℚ) (hen : rl.enabled = true) :
    ∀ (n : Nat) (st : TBStore) (m : ℤ),
    now - st.lastCleanup < TB_CLEANUP_INTERVAL →
    alookup (getBucketKey ip (route?.map (fun r => r.pfx))) st.buckets =
      some ⟨((m : ℤ) : ℚ), now,
        ((⌈tbBaseLimit rl.requestsPerWindow route? * (3 / 2 : ℚ)⌉ : ℤ) : ℚ),
        tbBaseLimit rl.requestsPerWindow route? / (rl.windowSeconds : ℚ)⟩ →
    0 ≤ m → m ≤ ⌈tbBaseLimit rl.requestsPerWindow route? * (3 / 2 : ℚ)⌉ →
    (runTBChecks ip (some rl) route? now n st).1 =
      expectedTBResults (tbBaseLimit rl.requestsPerWindow route?)
        (tbBaseLimit rl.requestsPerWindow route? / (rl.windowSeconds : ℚ)) m n := by
  intro n
  induction n with
  | zero => intro st m _ _ _ _; rfl
  | succ n ih =>
      intro st m hclean hb hm0 hmC
      have hmq : ((m : ℤ) : ℚ) ≤
          ((⌈tbBaseLimit rl.requestsPerWindow route? * (3 / 2 : ℚ)⌉ : ℤ) : ℚ) := by
        exact_mod_cast hmC
      have hrefill : refillTokens now
          (⟨((m : ℤ) : ℚ), now,
            ((⌈tbBaseLimit rl.requestsPerWindow route? * (3 / 2 : ℚ)⌉ : ℤ) : ℚ),
            tbBaseLimit rl.requestsPerWindow route? / (rl.windowSeconds : ℚ)⟩ :
            TokenBucket) =
          ⟨((m : ℤ) : ℚ), now,
           ((⌈tbBaseLimit rl.requestsPerWindow route? * (3 / 2 : ℚ)⌉ : ℤ) : ℚ),
           tbBaseLimit rl.requestsPerWindow route? / (rl.windowSeconds : ℚ)⟩ :=
        refillTokens_self _ _ rfl hmq
      obtain ⟨hbr, hlc⟩ := checkTB_step ip rl route? now st _ hen hclean hb
      rw [hrefill] at hbr
      have ht : (⟨((m : ℤ) : ℚ), now,
          ((⌈tbBaseLimit rl.requestsPerWindow route? * (3 / 2 : ℚ)⌉ : ℤ) : ℚ),
          tbBaseLimit rl.requestsPerWindow route? / (rl.windowSeconds : ℚ)⟩ :
          TokenBucket).tokens = ((m : ℤ) : ℚ) := rfl
      rw [ht] at hbr
      simp only [runTBChecks, expectedTBResults]
      have hclean' : now -
          (checkTokenBucketRateLimit ip (some rl) route? now st).2.lastCleanup <
          TB_CLEANUP_INTERVAL := by rw [hlc]; exact hclean
      by_cases h1 : (1 : ℤ) ≤ m
      · have h1' : (1 : ℚ) ≤ ((m : ℤ) : ℚ) := by exact_mod_cast h1
        rw [if_pos h1'] at hbr
        rw [if_pos h1]
        obtain ⟨h2, h3⟩ := hbr
        have hupd : ({ (⟨((m : ℤ) : ℚ), now,
            ((⌈tbBaseLimit rl.requestsPerWindow route? * (3 / 2 : ℚ)⌉ : ℤ) : ℚ),
            tbBaseLimit rl.requestsPerWindow route? / (rl.windowSeconds : ℚ)⟩ :
            TokenBucket) with tokens := ((m : ℤ) : ℚ) - 1 } : TokenBucket) =
            ⟨((m - 1 : ℤ) : ℚ), now,
             ((⌈tbBaseLimit rl.requestsPerWindow route? * (3 / 2 : ℚ)⌉ : ℤ) : ℚ),
             tbBaseLimit rl.requestsPerWindow route? / (rl.windowSeconds : ℚ)⟩ := by
          have : ((m : ℤ) : ℚ) - 1 = ((m - 1 : ℤ) : ℚ) := by push_cast; ring
          rw [this]
        rw [hupd] at h3
        have hfl : ⌊((m : ℤ) : ℚ) - 1⌋ = m - 1 := by
          rw [show ((m : ℤ) : ℚ) - 1 = ((m - 1 : ℤ) : ℚ) by push_cast; ring]
          exact Int.floor_intCast _
        rw [h2, hfl, ih _ (m - 1) hclean' h3 (by omega) (by omega)]
      · have h1' : ¬ (1 : ℚ) ≤ ((m : ℤ) : ℚ) := by exact_mod_cast h1
        rw [if_neg h1'] at hbr
        rw [if_neg h1]
        obtain ⟨h2, h3⟩ := hbr
        have hm : m = 0 := by omega
        subst hm
        have hret : (1 - ((0 : ℤ) : ℚ)) = 1 := by norm_num
        rw [hret] at h2
        rw [h2, ih _ 0 hclean' h3 le_rfl (by omega)]

theorem runTB_fresh (ip : Str) (rl : RateLimitSettings) (route? : Option Route)
    (now : ℚ) (n : Nat) (st : TBStore)
    (hen : rl.enabled = true)
    (hclean : now - st.lastCleanup < TB_CLEANUP_INTERVAL)
    (habs : alookup (getBucketKey ip (route?.map (fun r => r.pfx))) st.buckets = none)
    (hbase : 0 < tbBaseLimit rl.requestsPerWindow route?) :
    (runTBChecks ip (some rl) route? now (n + 1) st).1 =
      expectedTBResults (tbBaseLimit rl.requestsPerWindow route?)
        (tbBaseLimit rl.requestsPerWindow route? / (rl.windowSeconds : ℚ))
        ⌈tbBaseLimit rl.requestsPerWindow route? * (3 / 2 : ℚ)⌉ (n + 1) := by
  have hC0 : (0 : ℤ) < ⌈tbBaseLimit rl.requestsPerWindow route? * (3 / 2 : ℚ)⌉ :=
    Int.ceil_pos.mpr (mul_pos hbase (by norm_num))
  obtain ⟨h1, h2, h3⟩ := checkTB_fresh ip rl route? now st hen hclean habs hbase
  have hclean' : now -
      (checkTokenBucketRateLimit ip (some rl) route? now st).2.lastCleanup <
      TB_CLEANUP_INTERVAL := by rw [h3]; exact hclean
  have hcast : ((⌈tbBaseLimit rl.requestsPerWindow route? * (3 / 2 : ℚ)⌉ : ℤ) : ℚ)
      - 1 = ((⌈tbBaseLimit rl.requestsPerWindow route? * (3 / 2 : ℚ)⌉ - 1 : ℤ) : ℚ) := by
    push_cast; ring
  rw [hcast] at h2
  simp only [runTBChecks, expectedTBResults]
  rw [if_pos (by omega : (1 : ℤ) ≤
    ⌈tbBaseLimit rl.requestsPerWindow route? * (3 / 2 : ℚ)⌉)]
  rw [h1, runTB_from_tokens ip rl route? now hen n _ _ hclean' h2 (by omega) (by omega)]

theorem expectedTBResults_elem (base r : ℚ) :
    ∀ (n : Nat) (m : ℤ) (i : Nat), 0 ≤ m → i < n →
    (expectedTBResults base r m n).get? i =
      some (if (i : ℤ) < m then
        { allowed := true, limit := some base, remaining := some (m - i - 1),
          retryAfter := 0 }
      else
        { allowed := false, limit := some base, remaining := some 0,
          retryAfter := ⌈1 / r⌉ }) := by
  intro n
  induction n with
  | zero => intro m i _ hi; omega
  | succ n ih =>
      intro m i hm0 hi
      simp only [expectedTBResults]
      cases i with
      | zero =>
          by_cases h1 : (1 : ℤ) ≤ m
          · rw [if_pos h1]
            simp only [List.get?_cons_zero]
            rw [if_pos (by push_cast; omega)]
            rw [show (m - (0 : Nat) - 1 : ℤ) = m - 1 by push_cast; ring]
          · rw [if_neg h1]
            simp only [List.get?_cons_zero]
            rw [if_neg (by push_cast; omega)]
      | succ j =>
          by_cases h1 : (1 : ℤ) ≤ m
          · rw [if_pos h1]
            simp only [List.get?_cons_succ]
            rw [ih (m - 1) j (by omega) (by omega)]
            by_cases h2 : ((j : ℤ) < m - 1)
            · rw [if_pos h2, if_pos (by push_cast; omega)]
              rw [show (m - 1 - (j : ℤ) - 1 : ℤ) = m - ((j + 1 : Nat) : ℤ) - 1 by
                push_cast; ring]
            · rw [if_neg h2, if_neg (by push_cast; omega)]
          · rw [if_neg h1]
            simp only [List.get?_cons_succ]
            rw [ih m j hm0 (by omega)]
            have h2 : ¬ ((j : ℤ) < m) := by omega
            rw [if_neg h2, if_neg (by push_cast; omega)]

/-- C2 counterexample: with `requestsPerWindow = 1` (base limit 1) the bucket
the code stores has capacity `2 = ceil(1 * 1.5)`, not `1 * 1.5 = 1.5` as the
claim states. -/
theorem C2_capacity_counterexample :
    ∃ b : TokenBucket,
      alookup (getBucketKey (str "1.2.3.4")
          ((none : Option Route).map (fun r => r.pfx)))
        (checkTokenBucketRateLimit (str "1.2.3.4") (some ⟨true, 1, 60⟩) none 0
          (⟨[], 0⟩ : TBStore)).2.buckets = some b
      ∧ b.capacity = 2
      ∧ ¬ b.capacity = tbBaseLimit 1 none * (3 / 2 : ℚ) := by
  obtain ⟨h1, h2, h3⟩ := checkTB_fresh (str "1.2.3.4") ⟨true, 1, 60⟩ none 0
    (⟨[], 0⟩ : TBStore) rfl (by norm_num [TB_CLEANUP_INTERVAL]) rfl
    (by norm_num [tbBaseLimit])
  have hbase : tbBaseLimit 1 none = 1 := by norm_num [tbBaseLimit]
  have hC : (⌈tbBaseLimit 1 none * (3 / 2 : ℚ)⌉ : ℤ) = 2 := by
    rw [hbase, one_mul, Int.ceil_eq_iff]
    norm_num
  refine ⟨_, h2, ?_, ?_⟩
  · show ((⌈tbBaseLimit 1 none * (3 / 2 : ℚ)⌉ : ℤ) : ℚ) = 2
    rw [hC]; norm_num
  · show ¬ ((⌈tbBaseLimit 1 none * (3 / 2 : ℚ)⌉ : ℤ) : ℚ) =
      tbBaseLimit 1 none * (3 / 2 : ℚ)
    rw [hC, hbase]; norm_num

/-- C2 (amended): the bucket capacity is `ceil(baseLimit * 1.5)` — the code
applies `Math.ceil`, so capacity is not `baseLimit * 1.5` exactly.  With that
correction the rest holds: refill adds `elapsedSeconds * (baseLimit /
windowSeconds)` tokens capped at capacity, an allowed check consumes exactly
one token, a check finding fewer than one token is rejected with `retryAfter =
ceil((1 - tokens) / refillRate)`, and from a fresh (full) bucket exactly
`ceil(baseLimit * 1.5)` instantaneous checks succeed before a rejection with
`retryAfter = ceil(1 / refillRate) > 0`. -/
theorem C2_token_bucket :
    (∀ (now : ℚ) (b : TokenBucket), refillTokens now b =
      { tokens := min b.capacity (b.tokens +
          ((now - b.lastRefill) / 1000) * b.refillRate),
        lastRefill := now, capacity := b.capacity, refillRate := b.refillRate })
    ∧ (∀ (ip : Str) (rl : RateLimitSettings) (route? : Option Route) (now : ℚ)
        (st : TBStore), rl.enabled = true →
        now - st.lastCleanup < TB_CLEANUP_INTERVAL →
        alookup (getBucketKey ip (route?.map (fun r => r.pfx))) st.buckets = none →
        0 < tbBaseLimit rl.requestsPerWindow route? →
        (checkTokenBucketRateLimit ip (some rl) route? now st).1 =
          { allowed := true,
            limit := some (tbBaseLimit rl.requestsPerWindow route?),
            remaining := some
              (⌈tbBaseLimit rl.requestsPerWindow route? * (3 / 2 : ℚ)⌉ - 1),
            retryAfter := 0 }
        ∧ alookup (getBucketKey ip (route?.map (fun r => r.pfx)))
            (checkTokenBucketRateLimit ip (some rl) route? now st).2.buckets =
          some ⟨((⌈tbBaseLimit rl.requestsPerWindow route? * (3 / 2 : ℚ)⌉ : ℤ) : ℚ)
              - 1, now,
            ((⌈tbBaseLimit rl.requestsPerWindow route? * (3 / 2 : ℚ)⌉ : ℤ) : ℚ),
            tbBaseLimit rl.requestsPerWindow route? / (rl.windowSeconds : ℚ)⟩)
    ∧ (∀ (ip : Str) (rl : RateLimitSettings) (route? : Option Route) (now : ℚ)
        (st : TBStore) (b : TokenBucket), rl.enabled = true →
        now - st.lastCleanup < TB_CLEANUP_INTERVAL →
        alookup (getBucketKey ip (route?.map (fun r => r.pfx))) st.buckets =
          some b →
        (if 1 ≤ (refillTokens now b).tokens then
          (checkTokenBucketRateLimit ip (some rl) route? now st).1 =
            { allowed := true,
              limit := some (tbBaseLimit rl.requestsPerWindow route?),
              remaining := some ⌊(refillTokens now b).tokens - 1⌋,
              retryAfter := 0 }
          ∧ alookup (getBucketKey ip (route?.map (fun r => r.pfx)))
              (checkTokenBucketRateLimit ip (some rl) route? now st).2.buckets =
            some { refillTokens now b with
              tokens := (refillTokens now b).tokens - 1 }
        else
          (checkTokenBucketRateLimit ip (some rl) route? now st).1 =
            { allowed := false,
              limit := some (tbBaseLimit rl.requestsPerWindow route?),
              remaining := some 0,
              retryAfter := ⌈(1 - (refillTokens now b).tokens) /
                (tbBaseLimit rl.requestsPerWindow route? /
                  (rl.windowSeconds : ℚ))⌉ }
          ∧ alookup (getBucketKey ip (route?.map (fun r => r.pfx)))
              (checkTokenBucketRateLimit ip (some rl) route? now st).2.buckets =
            some (refillTokens now b)))
    ∧ (∀ (ip : Str) (rl : RateLimitSettings) (route? : Option Route) (now : ℚ)
        (st : TBStore) (n i : Nat), rl.enabled = true →
        now - st.lastCleanup < TB_CLEANUP_INTERVAL →
        alookup (getBucketKey ip (route?.map (fun r => r.pfx))) st.buckets = none →
        0 < tbBaseLimit rl.requestsPerWindow route? →
        0 < rl.windowSeconds →
        i < n + 1 →
        (runTBChecks ip (some rl) route? now (n + 1) st).1.get? i =
          some (if (i : ℤ) <
              ⌈tbBaseLimit rl.requestsPerWindow route? * (3 / 2 : ℚ)⌉ then
            { allowed := true,
              limit := some (tbBaseLimit rl.requestsPerWindow route?),
              remaining := some
                (⌈tbBaseLimit rl.requestsPerWindow route? * (3 / 2 : ℚ)⌉ - i - 1),
              retryAfter := 0 }
          else
            { allowed := false,
              limit := some (tbBaseLimit rl.requestsPerWindow route?),
              remaining := some 0,
              retryAfter := ⌈1 / (tbBaseLimit rl.requestsPerWindow route? /
                (rl.windowSeconds : ℚ))⌉ })
        ∧ 0 < ⌈1 / (tbBaseLimit rl.requestsPerWindow route? /
            (rl.windowSeconds : ℚ))⌉) := by
  refine ⟨?_, ?_, ?_, ?_⟩
  · intro now b; rfl
  · intro ip rl route? now st hen hclean habs hbase
    obtain ⟨h1, h2, _⟩ := checkTB_fresh ip rl route? now st hen hclean habs hbase
    exact ⟨h1, h2⟩
  · intro ip rl route? now st b hen hclean hb
    exact (checkTB_step ip rl route? now st b hen hclean hb).1
  · intro ip rl route? now st n i hen hclean habs hbase hws hi
    have hr : 0 < tbBaseLimit rl.requestsPerWindow route? /
        (rl.windowSeconds : ℚ) :=
      div_pos hbase (by exact_mod_cast hws)
    have hceil : 0 < ⌈1 / (tbBaseLimit rl.requestsPerWindow route? /
        (rl.windowSeconds : ℚ))⌉ :=
      Int.ceil_pos.mpr (by positivity)
    refine ⟨?_, hceil⟩
    rw [runTB_fresh ip rl route? now n st hen hclean habs hbase]
    have hC0 : (0 : ℤ) < ⌈tbBaseLimit rl.requestsPerWindow route? * (3 / 2 : ℚ)⌉ :=
      Int.ceil_pos.mpr (mul_pos hbase (by norm_num))
    exact expectedTBResults_elem _ _ (n + 1) _ i (le_of_lt hC0) hi

/-- Witness for C2: the amended claim at base limit 1 (capacity 2): the third
of three instantaneous checks from a fresh bucket. -/
theorem C2_token_bucket_witness :
    (⟨true, 1, 60⟩ : RateLimitSettings).enabled = true ∧
    (0 : ℚ) - (⟨[], 0⟩ : TBStore).lastCleanup < TB_CLEANUP_INTERVAL ∧
    alookup (getBucketKey (str "1.2.3.4")
        ((none : Option Route).map (fun r => r.pfx)))
      (⟨[], 0⟩ : TBStore).buckets = none ∧
    0 < tbBaseLimit 1 none ∧
    (0 : Nat) < 60 ∧
    (2 : Nat) < 2 + 1 ∧
    ((runTBChecks (str "1.2.3.4") (some ⟨true, 1, 60⟩) none 0 (2 + 1)
        (⟨[], 0⟩ : TBStore)).1.get? 2 =
      some (if ((2 : Nat) : ℤ) < ⌈tbBaseLimit 1 none * (3 / 2 : ℚ)⌉ then
        { allowed := true, limit := some (tbBaseLimit 1 none),
          remaining := some (⌈tbBaseLimit 1 none * (3 / 2 : ℚ)⌉ - 2 - 1),
          retryAfter := 0 }
      else
        { allowed := false, limit := some (tbBaseLimit 1 none),
          remaining := some 0,
          retryAfter := ⌈1 / (tbBaseLimit 1 none / ((60 : Nat) : ℚ))⌉ })
      ∧ 0 < ⌈1 / (tbBaseLimit 1 none / ((60 : Nat) : ℚ))⌉) := by
  refine ⟨rfl, by norm_num [TB_CLEANUP_INTERVAL], rfl,
    by norm_num [tbBaseLimit], by decide, by decide, ?_⟩
  exact C2_token_bucket.2.2.2 (str "1.2.3.4") ⟨true, 1, 60⟩ none 0
    (⟨[], 0⟩ : TBStore) 2 2 rfl (by norm_num [TB_CLEANUP_INTERVAL]) rfl
    (by norm_num [tbBaseLimit]) (by decide) (by decide)

end Gateway
